import Mathlib

/-! # Diagnostic translation of `src/clang_utils.cc`

A shallow embedding of the translation unit `clang_utils.cc`: the conversion of a
native compiler diagnostic into a protocol diagnostic record
(`BuildAndDisposeDiagnostic`, `GetLsRangeForFixIt`, `FileName`, `ToString(CXString)`)
and the naming of cursor kinds (`ToString(CXCursorKind)`).

The native library is modelled by the values its queries return: a handle is the
record of what can be read from it.  Every native call made by the code is written,
in program order, to a list of `Call`s returned next to the value, so that disposal
counts and call order can be stated.  `unsigned int` values are natural numbers
below `2 ^ 32`, and `unsigned` subtraction wraps modulo `2 ^ 32`.
-/

namespace ClangUtils

/-! ## Native values -/

/-- A native string handle (`CXString`).  `data` is the pointer member tested by
`ToString`: `none` is `nullptr` (no underlying data), `some s` points at the
characters `s`.  `private_flags` is the second member of the native struct. -/
structure CXString where
  data : Option String
  private_flags : Nat
deriving DecidableEq

/-- A native file reference (`CXFile`), given by the string handle that
`clang_getFileName` returns for it. -/
structure CXFile where
  name : CXString
deriving DecidableEq

/-- A native source location (`CXSourceLocation`), given by the file, line and column
that `clang_getSpellingLocation` writes for it.  `line` and `column` are
`unsigned int`. -/
structure CXSourceLocation where
  file : CXFile
  line : Nat
  column : Nat
deriving DecidableEq

/-- A native source range (`CXSourceRange`), given by the locations that
`clang_getRangeStart` and `clang_getRangeEnd` return for it. -/
structure CXSourceRange where
  start : CXSourceLocation
  end_ : CXSourceLocation
deriving DecidableEq

/-- The enumeration `CXDiagnosticSeverity` of the native library: the five levels named
by the `switch` of `BuildAndDisposeDiagnostic`. -/
inductive CXDiagnosticSeverity where
  | CXDiagnostic_Ignored
  | CXDiagnostic_Note
  | CXDiagnostic_Warning
  | CXDiagnostic_Error
  | CXDiagnostic_Fatal
deriving DecidableEq

/-- A native diagnostic handle (`CXDiagnostic`), given by what the queries used in
`BuildAndDisposeDiagnostic` return for it: its location, its spelling, its enabling
option, its category number, its severity, and its fix-its (replacement text and
replacement range) in index order. -/
structure CXDiagnostic where
  location : CXSourceLocation
  spelling : CXString
  option : CXString
  category : Nat
  severity : CXDiagnosticSeverity
  fixits : List (CXString × CXSourceRange)
deriving DecidableEq

/-- One call into the native library, with the handle it is made on. -/
inductive Call where
  | clang_getRangeStart (range : CXSourceRange)
  | clang_getRangeEnd (range : CXSourceRange)
  | clang_getSpellingLocation (location : CXSourceLocation)
  | clang_getDiagnosticLocation (diagnostic : CXDiagnostic)
  | clang_disposeDiagnostic (diagnostic : CXDiagnostic)
  | clang_getDiagnosticSpelling (diagnostic : CXDiagnostic)
  | clang_getDiagnosticOption (diagnostic : CXDiagnostic)
  | clang_getDiagnosticCategory (diagnostic : CXDiagnostic)
  | clang_getDiagnosticSeverity (diagnostic : CXDiagnostic)
  | clang_getDiagnosticNumFixIts (diagnostic : CXDiagnostic)
  | clang_getDiagnosticFixIt (diagnostic : CXDiagnostic) (i : Nat)
  | clang_getFileName (file : CXFile)
  | clang_getCString (cx_string : CXString)
  | clang_disposeString (cx_string : CXString)
deriving DecidableEq

/-- The number of values of `unsigned int`. -/
def UINT_RANGE : Nat := 4294967296

/-- Subtraction of `unsigned int` values: `a - b` modulo `2 ^ 32`. -/
def usub (a b : Nat) : Nat := (a + UINT_RANGE - b) % UINT_RANGE

/-- Value returned by `clang_getDiagnosticFixIt(diagnostic, i, &replacement_range)`:
the text handle and the replacement range of fix-it `i`; past the last fix-it the
native library gives an empty string and a null range. -/
def clang_getDiagnosticFixIt (diagnostic : CXDiagnostic) (i : Nat) : CXString × CXSourceRange :=
  diagnostic.fixits.getD i
    (⟨none, 0⟩, ⟨⟨⟨⟨none, 0⟩⟩, 0, 0⟩, ⟨⟨⟨none, 0⟩⟩, 0, 0⟩⟩)

/-- Value returned by `clang_getDiagnosticNumFixIts(diagnostic)`. -/
def clang_getDiagnosticNumFixIts (diagnostic : CXDiagnostic) : Nat :=
  diagnostic.fixits.length

/-! ## Protocol values -/

/-- Modelled from the spec: the declaration of `lsPosition` is not in `clang_utils.cc`.
A zero-based (line, column) pair; the fields hold the two constructor arguments as
`clang_utils.cc` computes them, which are `unsigned int` values. -/
structure lsPosition where
  line : Nat
  character : Nat
deriving DecidableEq

/-- Modelled from the spec: the declaration of `lsRange` is not in `clang_utils.cc`.
A pair (start, end) of positions. -/
structure lsRange where
  start : lsPosition
  end_ : lsPosition
deriving DecidableEq

/-- Modelled from the spec: the declaration of `lsTextEdit` is not in `clang_utils.cc`.
A range and the text that replaces it. -/
structure lsTextEdit where
  range : lsRange
  newText : String
deriving DecidableEq

/-- Modelled from the spec: the declaration of `lsDiagnosticSeverity` is not in
`clang_utils.cc`.  The three severities that `BuildAndDisposeDiagnostic` assigns. -/
inductive lsDiagnosticSeverity where
  | Information
  | Warning
  | Error
deriving DecidableEq

/-- Modelled from the spec: the declaration of `lsDiagnostic` is not in
`clang_utils.cc`.  The members that `BuildAndDisposeDiagnostic` assigns. -/
structure lsDiagnostic where
  range : lsRange
  severity : lsDiagnosticSeverity
  code : Nat
  message : String
  fixits_ : List lsTextEdit
deriving DecidableEq

/-! ## The functions of `clang_utils.cc` -/

/-- Embedding of `std::string ToString(CXString cx_string)`: the text, and the native
calls made.  With `data == nullptr` the result is the empty string and nothing is
called; otherwise the characters are copied and the handle is disposed. -/
def CXString.ToString (cx_string : CXString) : String × List Call :=
  match cx_string.data with
  | some s => (s, [Call.clang_getCString cx_string, Call.clang_disposeString cx_string])
  | none => ("", [])

/-- Embedding of `std::string FileName(CXFile file)`.  `NormalizePath` is declared in
`platform.h`, outside `clang_utils.cc`, and is a parameter. -/
def FileName (NormalizePath : String → String) (file : CXFile) : String × List Call :=
  let cx_name := file.name
  let name := cx_name.ToString
  (NormalizePath name.1, Call.clang_getFileName file :: name.2)

/-- Embedding of `lsRange GetLsRangeForFixIt(const CXSourceRange& range)`. -/
def GetLsRangeForFixIt (range : CXSourceRange) : lsRange × List Call :=
  let start := range.start
  let end_ := range.end_
  let start_line := start.line
  let start_column := start.column
  let end_line := end_.line
  let end_column := end_.column
  (lsRange.mk (lsPosition.mk (usub start_line 1) (usub start_column 1))
      (lsPosition.mk (usub end_line 1) end_column),
   [Call.clang_getRangeStart range, Call.clang_getRangeEnd range,
    Call.clang_getSpellingLocation start, Call.clang_getSpellingLocation end_])

/-- The body of the loop `for (unsigned i = 0; i < num_fixits; ++i)` of
`BuildAndDisposeDiagnostic`, for index `i`: one edit is pushed to `fixits_`. -/
def fixItBody (diagnostic : CXDiagnostic) (i : Nat) (st : lsDiagnostic × List Call) :
    lsDiagnostic × List Call :=
  let fixit := clang_getDiagnosticFixIt diagnostic i
  let text := fixit.1
  let replacement_range := fixit.2
  let newText := text.ToString
  let range := GetLsRangeForFixIt replacement_range
  let edit : lsTextEdit := { range := range.1, newText := newText.1 }
  ({ st.1 with fixits_ := st.1.fixits_ ++ [edit] },
   st.2 ++ [Call.clang_getDiagnosticFixIt diagnostic i] ++ newText.2 ++ range.2)

/-- The loop `for (unsigned i = 0; i < num_fixits; ++i)` of `BuildAndDisposeDiagnostic`
from index `i` on, with `remaining = num_fixits - i` iterations left. -/
def fixItLoop (diagnostic : CXDiagnostic) :
    Nat → Nat → lsDiagnostic × List Call → lsDiagnostic × List Call
  | 0, _, st => st
  | remaining + 1, i, st => fixItLoop diagnostic remaining (i + 1) (fixItBody diagnostic i st)

/-- Embedding of
`optional<lsDiagnostic> BuildAndDisposeDiagnostic(CXDiagnostic diagnostic, const std::string& path)`:
the optional record, and the native calls made in program order. -/
def BuildAndDisposeDiagnostic (NormalizePath : String → String) (diagnostic : CXDiagnostic)
    (path : String) : Option lsDiagnostic × List Call :=
  let location := diagnostic.location
  let file := location.file
  let line := location.line
  let column := location.column
  let calls := [Call.clang_getDiagnosticLocation diagnostic,
    Call.clang_getSpellingLocation location]
  let file_name := FileName NormalizePath file
  let calls := calls ++ file_name.2
  if path ≠ file_name.1 then
    (none, calls ++ [Call.clang_disposeDiagnostic diagnostic])
  else
    let range := lsRange.mk (lsPosition.mk (usub line 1) column)
      (lsPosition.mk (usub line 1) column)
    let spelling := diagnostic.spelling.ToString
    let calls := calls ++ [Call.clang_getDiagnosticSpelling diagnostic] ++ spelling.2
    let message := spelling.1
    let enabling_flag := diagnostic.option.ToString
    let calls := calls ++ [Call.clang_getDiagnosticOption diagnostic] ++ enabling_flag.2
    let message :=
      if enabling_flag.1 ≠ "" then message ++ (" [" ++ enabling_flag.1 ++ "]") else message
    let code := diagnostic.category
    let calls := calls ++ [Call.clang_getDiagnosticCategory diagnostic]
    let severity :=
      match diagnostic.severity with
      | .CXDiagnostic_Ignored => lsDiagnosticSeverity.Information
      | .CXDiagnostic_Note => lsDiagnosticSeverity.Information
      | .CXDiagnostic_Warning => lsDiagnosticSeverity.Warning
      | .CXDiagnostic_Error => lsDiagnosticSeverity.Error
      | .CXDiagnostic_Fatal => lsDiagnosticSeverity.Error
    let calls := calls ++ [Call.clang_getDiagnosticSeverity diagnostic]
    let ls_diagnostic : lsDiagnostic :=
      { range := range, severity := severity, code := code, message := message, fixits_ := [] }
    let num_fixits := clang_getDiagnosticNumFixIts diagnostic
    let calls := calls ++ [Call.clang_getDiagnosticNumFixIts diagnostic]
    let st := fixItLoop diagnostic num_fixits 0 (ls_diagnostic, calls)
    (some st.1, st.2 ++ [Call.clang_disposeDiagnostic diagnostic])

/-! ## `ToString(CXCursorKind)` -/

/-- The enumerators of `CXCursorKind` that label a `case` of the switch of
`ToString(CXCursorKind)`, in the order of the source. -/
inductive CXCursorEnumerator where
  | CXCursor_UnexposedDecl
  | CXCursor_StructDecl
  | CXCursor_UnionDecl
  | CXCursor_ClassDecl
  | CXCursor_EnumDecl
  | CXCursor_FieldDecl
  | CXCursor_EnumConstantDecl
  | CXCursor_FunctionDecl
  | CXCursor_VarDecl
  | CXCursor_ParmDecl
  | CXCursor_ObjCInterfaceDecl
  | CXCursor_ObjCCategoryDecl
  | CXCursor_ObjCProtocolDecl
  | CXCursor_ObjCPropertyDecl
  | CXCursor_ObjCIvarDecl
  | CXCursor_ObjCInstanceMethodDecl
  | CXCursor_ObjCClassMethodDecl
  | CXCursor_ObjCImplementationDecl
  | CXCursor_ObjCCategoryImplDecl
  | CXCursor_TypedefDecl
  | CXCursor_CXXMethod
  | CXCursor_Namespace
  | CXCursor_LinkageSpec
  | CXCursor_Constructor
  | CXCursor_Destructor
  | CXCursor_ConversionFunction
  | CXCursor_TemplateTypeParameter
  | CXCursor_NonTypeTemplateParameter
  | CXCursor_TemplateTemplateParameter
  | CXCursor_FunctionTemplate
  | CXCursor_ClassTemplate
  | CXCursor_ClassTemplatePartialSpecialization
  | CXCursor_NamespaceAlias
  | CXCursor_UsingDirective
  | CXCursor_UsingDeclaration
  | CXCursor_TypeAliasDecl
  | CXCursor_ObjCSynthesizeDecl
  | CXCursor_ObjCDynamicDecl
  | CXCursor_CXXAccessSpecifier
  | CXCursor_ObjCSuperClassRef
  | CXCursor_ObjCProtocolRef
  | CXCursor_ObjCClassRef
  | CXCursor_TypeRef
  | CXCursor_CXXBaseSpecifier
  | CXCursor_TemplateRef
  | CXCursor_NamespaceRef
  | CXCursor_MemberRef
  | CXCursor_LabelRef
  | CXCursor_OverloadedDeclRef
  | CXCursor_VariableRef
  | CXCursor_InvalidFile
  | CXCursor_NoDeclFound
  | CXCursor_NotImplemented
  | CXCursor_InvalidCode
  | CXCursor_UnexposedExpr
  | CXCursor_DeclRefExpr
  | CXCursor_MemberRefExpr
  | CXCursor_CallExpr
  | CXCursor_ObjCMessageExpr
  | CXCursor_BlockExpr
  | CXCursor_IntegerLiteral
  | CXCursor_FloatingLiteral
  | CXCursor_ImaginaryLiteral
  | CXCursor_StringLiteral
  | CXCursor_CharacterLiteral
  | CXCursor_ParenExpr
  | CXCursor_UnaryOperator
  | CXCursor_ArraySubscriptExpr
  | CXCursor_BinaryOperator
  | CXCursor_CompoundAssignOperator
  | CXCursor_ConditionalOperator
  | CXCursor_CStyleCastExpr
  | CXCursor_CompoundLiteralExpr
  | CXCursor_InitListExpr
  | CXCursor_AddrLabelExpr
  | CXCursor_StmtExpr
  | CXCursor_GenericSelectionExpr
  | CXCursor_GNUNullExpr
  | CXCursor_CXXStaticCastExpr
  | CXCursor_CXXDynamicCastExpr
  | CXCursor_CXXReinterpretCastExpr
  | CXCursor_CXXConstCastExpr
  | CXCursor_CXXFunctionalCastExpr
  | CXCursor_CXXTypeidExpr
  | CXCursor_CXXBoolLiteralExpr
  | CXCursor_CXXNullPtrLiteralExpr
  | CXCursor_CXXThisExpr
  | CXCursor_CXXThrowExpr
  | CXCursor_CXXNewExpr
  | CXCursor_CXXDeleteExpr
  | CXCursor_UnaryExpr
  | CXCursor_ObjCStringLiteral
  | CXCursor_ObjCEncodeExpr
  | CXCursor_ObjCSelectorExpr
  | CXCursor_ObjCProtocolExpr
  | CXCursor_ObjCBridgedCastExpr
  | CXCursor_PackExpansionExpr
  | CXCursor_SizeOfPackExpr
  | CXCursor_LambdaExpr
  | CXCursor_ObjCBoolLiteralExpr
  | CXCursor_ObjCSelfExpr
  | CXCursor_UnexposedStmt
  | CXCursor_LabelStmt
  | CXCursor_CompoundStmt
  | CXCursor_CaseStmt
  | CXCursor_DefaultStmt
  | CXCursor_IfStmt
  | CXCursor_SwitchStmt
  | CXCursor_WhileStmt
  | CXCursor_DoStmt
  | CXCursor_ForStmt
  | CXCursor_GotoStmt
  | CXCursor_IndirectGotoStmt
  | CXCursor_ContinueStmt
  | CXCursor_BreakStmt
  | CXCursor_ReturnStmt
  | CXCursor_GCCAsmStmt
  | CXCursor_ObjCAtTryStmt
  | CXCursor_ObjCAtCatchStmt
  | CXCursor_ObjCAtFinallyStmt
  | CXCursor_ObjCAtThrowStmt
  | CXCursor_ObjCAtSynchronizedStmt
  | CXCursor_ObjCAutoreleasePoolStmt
  | CXCursor_ObjCForCollectionStmt
  | CXCursor_CXXCatchStmt
  | CXCursor_CXXTryStmt
  | CXCursor_CXXForRangeStmt
  | CXCursor_SEHTryStmt
  | CXCursor_SEHExceptStmt
  | CXCursor_SEHFinallyStmt
  | CXCursor_MSAsmStmt
  | CXCursor_NullStmt
  | CXCursor_DeclStmt
  | CXCursor_LastStmt
  | CXCursor_TranslationUnit
  | CXCursor_UnexposedAttr
  | CXCursor_IBActionAttr
  | CXCursor_IBOutletAttr
  | CXCursor_IBOutletCollectionAttr
  | CXCursor_CXXFinalAttr
  | CXCursor_CXXOverrideAttr
  | CXCursor_AnnotateAttr
  | CXCursor_AsmLabelAttr
  | CXCursor_LastAttr
  | CXCursor_PreprocessingDirective
  | CXCursor_MacroDefinition
  | CXCursor_MacroExpansion
  | CXCursor_InclusionDirective
  | CXCursor_ModuleImportDecl
  | CXCursor_LastExtraDecl
deriving DecidableEq

/-- The `case`s of the switch of `ToString(CXCursorKind)`, in the order of the source:
the enumerator of the `case` label and the string literal that the case returns. -/
def cursorKindCases : List (CXCursorEnumerator × String) :=
  [(CXCursorEnumerator.CXCursor_UnexposedDecl, "UnexposedDecl"),
   (CXCursorEnumerator.CXCursor_StructDecl, "StructDecl"),
   (CXCursorEnumerator.CXCursor_UnionDecl, "UnionDecl"),
   (CXCursorEnumerator.CXCursor_ClassDecl, "ClassDecl"),
   (CXCursorEnumerator.CXCursor_EnumDecl, "EnumDecl"),
   (CXCursorEnumerator.CXCursor_FieldDecl, "FieldDecl"),
   (CXCursorEnumerator.CXCursor_EnumConstantDecl, "EnumConstantDecl"),
   (CXCursorEnumerator.CXCursor_FunctionDecl, "FunctionDecl"),
   (CXCursorEnumerator.CXCursor_VarDecl, "VarDecl"),
   (CXCursorEnumerator.CXCursor_ParmDecl, "ParmDecl"),
   (CXCursorEnumerator.CXCursor_ObjCInterfaceDecl, "ObjCInterfaceDecl"),
   (CXCursorEnumerator.CXCursor_ObjCCategoryDecl, "ObjCCategoryDecl"),
   (CXCursorEnumerator.CXCursor_ObjCProtocolDecl, "ObjCProtocolDecl"),
   (CXCursorEnumerator.CXCursor_ObjCPropertyDecl, "ObjCPropertyDecl"),
   (CXCursorEnumerator.CXCursor_ObjCIvarDecl, "ObjCIvarDecl"),
   (CXCursorEnumerator.CXCursor_ObjCInstanceMethodDecl, "ObjCInstanceMethodDecl"),
   (CXCursorEnumerator.CXCursor_ObjCClassMethodDecl, "ObjCClassMethodDecl"),
   (CXCursorEnumerator.CXCursor_ObjCImplementationDecl, "ObjCImplementationDecl"),
   (CXCursorEnumerator.CXCursor_ObjCCategoryImplDecl, "ObjCCategoryImplDecl"),
   (CXCursorEnumerator.CXCursor_TypedefDecl, "TypedefDecl"),
   (CXCursorEnumerator.CXCursor_CXXMethod, "CXXMethod"),
   (CXCursorEnumerator.CXCursor_Namespace, "Namespace"),
   (CXCursorEnumerator.CXCursor_LinkageSpec, "LinkageSpec"),
   (CXCursorEnumerator.CXCursor_Constructor, "Constructor"),
   (CXCursorEnumerator.CXCursor_Destructor, "Destructor"),
   (CXCursorEnumerator.CXCursor_ConversionFunction, "ConversionFunction"),
   (CXCursorEnumerator.CXCursor_TemplateTypeParameter, "TemplateTypeParameter"),
   (CXCursorEnumerator.CXCursor_NonTypeTemplateParameter, "NonTypeTemplateParameter"),
   (CXCursorEnumerator.CXCursor_TemplateTemplateParameter, "TemplateTemplateParameter"),
   (CXCursorEnumerator.CXCursor_FunctionTemplate, "FunctionTemplate"),
   (CXCursorEnumerator.CXCursor_ClassTemplate, "ClassTemplate"),
   (CXCursorEnumerator.CXCursor_ClassTemplatePartialSpecialization, "ClassTemplatePartialSpecialization"),
   (CXCursorEnumerator.CXCursor_NamespaceAlias, "NamespaceAlias"),
   (CXCursorEnumerator.CXCursor_UsingDirective, "UsingDirective"),
   (CXCursorEnumerator.CXCursor_UsingDeclaration, "UsingDeclaration"),
   (CXCursorEnumerator.CXCursor_TypeAliasDecl, "TypeAliasDecl"),
   (CXCursorEnumerator.CXCursor_ObjCSynthesizeDecl, "ObjCSynthesizeDecl"),
   (CXCursorEnumerator.CXCursor_ObjCDynamicDecl, "ObjCDynamicDecl"),
   (CXCursorEnumerator.CXCursor_CXXAccessSpecifier, "CXXAccessSpecifier"),
   (CXCursorEnumerator.CXCursor_ObjCSuperClassRef, "ObjCSuperClassRef"),
   (CXCursorEnumerator.CXCursor_ObjCProtocolRef, "ObjCProtocolRef"),
   (CXCursorEnumerator.CXCursor_ObjCClassRef, "ObjCClassRef"),
   (CXCursorEnumerator.CXCursor_TypeRef, "TypeRef"),
   (CXCursorEnumerator.CXCursor_CXXBaseSpecifier, "CXXBaseSpecifier"),
   (CXCursorEnumerator.CXCursor_TemplateRef, "TemplateRef"),
   (CXCursorEnumerator.CXCursor_NamespaceRef, "NamespaceRef"),
   (CXCursorEnumerator.CXCursor_MemberRef, "MemberRef"),
   (CXCursorEnumerator.CXCursor_LabelRef, "LabelRef"),
   (CXCursorEnumerator.CXCursor_OverloadedDeclRef, "OverloadedDeclRef"),
   (CXCursorEnumerator.CXCursor_VariableRef, "VariableRef"),
   (CXCursorEnumerator.CXCursor_InvalidFile, "InvalidFile"),
   (CXCursorEnumerator.CXCursor_NoDeclFound, "NoDeclFound"),
   (CXCursorEnumerator.CXCursor_NotImplemented, "NotImplemented"),
   (CXCursorEnumerator.CXCursor_InvalidCode, "InvalidCode"),
   (CXCursorEnumerator.CXCursor_UnexposedExpr, "UnexposedExpr"),
   (CXCursorEnumerator.CXCursor_DeclRefExpr, "DeclRefExpr"),
   (CXCursorEnumerator.CXCursor_MemberRefExpr, "MemberRefExpr"),
   (CXCursorEnumerator.CXCursor_CallExpr, "CallExpr"),
   (CXCursorEnumerator.CXCursor_ObjCMessageExpr, "ObjCMessageExpr"),
   (CXCursorEnumerator.CXCursor_BlockExpr, "BlockExpr"),
   (CXCursorEnumerator.CXCursor_IntegerLiteral, "IntegerLiteral"),
   (CXCursorEnumerator.CXCursor_FloatingLiteral, "FloatingLiteral"),
   (CXCursorEnumerator.CXCursor_ImaginaryLiteral, "ImaginaryLiteral"),
   (CXCursorEnumerator.CXCursor_StringLiteral, "StringLiteral"),
   (CXCursorEnumerator.CXCursor_CharacterLiteral, "CharacterLiteral"),
   (CXCursorEnumerator.CXCursor_ParenExpr, "ParenExpr"),
   (CXCursorEnumerator.CXCursor_UnaryOperator, "UnaryOperator"),
   (CXCursorEnumerator.CXCursor_ArraySubscriptExpr, "ArraySubscriptExpr"),
   (CXCursorEnumerator.CXCursor_BinaryOperator, "BinaryOperator"),
   (CXCursorEnumerator.CXCursor_CompoundAssignOperator, "CompoundAssignOperator"),
   (CXCursorEnumerator.CXCursor_ConditionalOperator, "ConditionalOperator"),
   (CXCursorEnumerator.CXCursor_CStyleCastExpr, "CStyleCastExpr"),
   (CXCursorEnumerator.CXCursor_CompoundLiteralExpr, "CompoundLiteralExpr"),
   (CXCursorEnumerator.CXCursor_InitListExpr, "InitListExpr"),
   (CXCursorEnumerator.CXCursor_AddrLabelExpr, "AddrLabelExpr"),
   (CXCursorEnumerator.CXCursor_StmtExpr, "StmtExpr"),
   (CXCursorEnumerator.CXCursor_GenericSelectionExpr, "GenericSelectionExpr"),
   (CXCursorEnumerator.CXCursor_GNUNullExpr, "GNUNullExpr"),
   (CXCursorEnumerator.CXCursor_CXXStaticCastExpr, "CXXStaticCastExpr"),
   (CXCursorEnumerator.CXCursor_CXXDynamicCastExpr, "CXXDynamicCastExpr"),
   (CXCursorEnumerator.CXCursor_CXXReinterpretCastExpr, "CXXReinterpretCastExpr"),
   (CXCursorEnumerator.CXCursor_CXXConstCastExpr, "CXXConstCastExpr"),
   (CXCursorEnumerator.CXCursor_CXXFunctionalCastExpr, "CXXFunctionalCastExpr"),
   (CXCursorEnumerator.CXCursor_CXXTypeidExpr, "CXXTypeidExpr"),
   (CXCursorEnumerator.CXCursor_CXXBoolLiteralExpr, "CXXBoolLiteralExpr"),
   (CXCursorEnumerator.CXCursor_CXXNullPtrLiteralExpr, "CXXNullPtrLiteralExpr"),
   (CXCursorEnumerator.CXCursor_CXXThisExpr, "CXXThisExpr"),
   (CXCursorEnumerator.CXCursor_CXXThrowExpr, "CXXThrowExpr"),
   (CXCursorEnumerator.CXCursor_CXXNewExpr, "CXXNewExpr"),
   (CXCursorEnumerator.CXCursor_CXXDeleteExpr, "CXXDeleteExpr"),
   (CXCursorEnumerator.CXCursor_UnaryExpr, "UnaryExpr"),
   (CXCursorEnumerator.CXCursor_ObjCStringLiteral, "ObjCStringLiteral"),
   (CXCursorEnumerator.CXCursor_ObjCEncodeExpr, "ObjCEncodeExpr"),
   (CXCursorEnumerator.CXCursor_ObjCSelectorExpr, "ObjCSelectorExpr"),
   (CXCursorEnumerator.CXCursor_ObjCProtocolExpr, "ObjCProtocolExpr"),
   (CXCursorEnumerator.CXCursor_ObjCBridgedCastExpr, "ObjCBridgedCastExpr"),
   (CXCursorEnumerator.CXCursor_PackExpansionExpr, "PackExpansionExpr"),
   (CXCursorEnumerator.CXCursor_SizeOfPackExpr, "SizeOfPackExpr"),
   (CXCursorEnumerator.CXCursor_LambdaExpr, "LambdaExpr"),
   (CXCursorEnumerator.CXCursor_ObjCBoolLiteralExpr, "ObjCBoolLiteralExpr"),
   (CXCursorEnumerator.CXCursor_ObjCSelfExpr, "ObjCSelfExpr"),
   (CXCursorEnumerator.CXCursor_UnexposedStmt, "UnexposedStmt"),
   (CXCursorEnumerator.CXCursor_LabelStmt, "LabelStmt"),
   (CXCursorEnumerator.CXCursor_CompoundStmt, "CompoundStmt"),
   (CXCursorEnumerator.CXCursor_CaseStmt, "CaseStmt"),
   (CXCursorEnumerator.CXCursor_DefaultStmt, "DefaultStmt"),
   (CXCursorEnumerator.CXCursor_IfStmt, "IfStmt"),
   (CXCursorEnumerator.CXCursor_SwitchStmt, "SwitchStmt"),
   (CXCursorEnumerator.CXCursor_WhileStmt, "WhileStmt"),
   (CXCursorEnumerator.CXCursor_DoStmt, "DoStmt"),
   (CXCursorEnumerator.CXCursor_ForStmt, "ForStmt"),
   (CXCursorEnumerator.CXCursor_GotoStmt, "GotoStmt"),
   (CXCursorEnumerator.CXCursor_IndirectGotoStmt, "IndirectGotoStmt"),
   (CXCursorEnumerator.CXCursor_ContinueStmt, "ContinueStmt"),
   (CXCursorEnumerator.CXCursor_BreakStmt, "BreakStmt"),
   (CXCursorEnumerator.CXCursor_ReturnStmt, "ReturnStmt"),
   (CXCursorEnumerator.CXCursor_GCCAsmStmt, "GCCAsmStmt"),
   (CXCursorEnumerator.CXCursor_ObjCAtTryStmt, "ObjCAtTryStmt"),
   (CXCursorEnumerator.CXCursor_ObjCAtCatchStmt, "ObjCAtCatchStmt"),
   (CXCursorEnumerator.CXCursor_ObjCAtFinallyStmt, "ObjCAtFinallyStmt"),
   (CXCursorEnumerator.CXCursor_ObjCAtThrowStmt, "ObjCAtThrowStmt"),
   (CXCursorEnumerator.CXCursor_ObjCAtSynchronizedStmt, "ObjCAtSynchronizedStmt"),
   (CXCursorEnumerator.CXCursor_ObjCAutoreleasePoolStmt, "ObjCAutoreleasePoolStmt"),
   (CXCursorEnumerator.CXCursor_ObjCForCollectionStmt, "ObjCForCollectionStmt"),
   (CXCursorEnumerator.CXCursor_CXXCatchStmt, "CXXCatchStmt"),
   (CXCursorEnumerator.CXCursor_CXXTryStmt, "CXXTryStmt"),
   (CXCursorEnumerator.CXCursor_CXXForRangeStmt, "CXXForRangeStmt"),
   (CXCursorEnumerator.CXCursor_SEHTryStmt, "SEHTryStmt"),
   (CXCursorEnumerator.CXCursor_SEHExceptStmt, "SEHExceptStmt"),
   (CXCursorEnumerator.CXCursor_SEHFinallyStmt, "SEHFinallyStmt"),
   (CXCursorEnumerator.CXCursor_MSAsmStmt, "MSAsmStmt"),
   (CXCursorEnumerator.CXCursor_NullStmt, "NullStmt"),
   (CXCursorEnumerator.CXCursor_DeclStmt, "DeclStmt"),
   (CXCursorEnumerator.CXCursor_LastStmt, "LastStmt"),
   (CXCursorEnumerator.CXCursor_TranslationUnit, "TranslationUnit"),
   (CXCursorEnumerator.CXCursor_UnexposedAttr, "UnexposedAttr"),
   (CXCursorEnumerator.CXCursor_IBActionAttr, "IBActionAttr"),
   (CXCursorEnumerator.CXCursor_IBOutletAttr, "IBOutletAttr"),
   (CXCursorEnumerator.CXCursor_IBOutletCollectionAttr, "IBOutletCollectionAttr"),
   (CXCursorEnumerator.CXCursor_CXXFinalAttr, "CXXFinalAttr"),
   (CXCursorEnumerator.CXCursor_CXXOverrideAttr, "CXXOverrideAttr"),
   (CXCursorEnumerator.CXCursor_AnnotateAttr, "AnnotateAttr"),
   (CXCursorEnumerator.CXCursor_AsmLabelAttr, "AsmLabelAttr"),
   (CXCursorEnumerator.CXCursor_LastAttr, "LastAttr"),
   (CXCursorEnumerator.CXCursor_PreprocessingDirective, "PreprocessingDirective"),
   (CXCursorEnumerator.CXCursor_MacroDefinition, "MacroDefinition"),
   (CXCursorEnumerator.CXCursor_MacroExpansion, "MacroExpansion"),
   (CXCursorEnumerator.CXCursor_InclusionDirective, "InclusionDirective"),
   (CXCursorEnumerator.CXCursor_ModuleImportDecl, "ModuleImportDecl"),
   (CXCursorEnumerator.CXCursor_LastExtraDecl, "LastExtraDecl")]

/-- Embedding of `std::string ToString(CXCursorKind kind)`.  `kind` is the integer code
of the enumeration value.  `value` gives the integer value of each enumerator; the
enumeration is declared in the header of the native library, outside `clang_utils.cc`,
so the values are a parameter.  The switch selects the case whose label has the value
`kind` and returns its literal; without such a case control reaches `default: break;`
and the literal after the switch is returned. -/
def CXCursorKind.ToString (value : CXCursorEnumerator → Int) (kind : Int) : String :=
  match cursorKindCases.find? (fun c => value c.1 = kind) with
  | some c => c.2
  | none => "<unknown kind>"

/-- The identifier of each enumerator, as written in the `case` labels. -/
def CXCursorEnumerator.identifier : CXCursorEnumerator → String
  | .CXCursor_UnexposedDecl => "CXCursor_UnexposedDecl"
  | .CXCursor_StructDecl => "CXCursor_StructDecl"
  | .CXCursor_UnionDecl => "CXCursor_UnionDecl"
  | .CXCursor_ClassDecl => "CXCursor_ClassDecl"
  | .CXCursor_EnumDecl => "CXCursor_EnumDecl"
  | .CXCursor_FieldDecl => "CXCursor_FieldDecl"
  | .CXCursor_EnumConstantDecl => "CXCursor_EnumConstantDecl"
  | .CXCursor_FunctionDecl => "CXCursor_FunctionDecl"
  | .CXCursor_VarDecl => "CXCursor_VarDecl"
  | .CXCursor_ParmDecl => "CXCursor_ParmDecl"
  | .CXCursor_ObjCInterfaceDecl => "CXCursor_ObjCInterfaceDecl"
  | .CXCursor_ObjCCategoryDecl => "CXCursor_ObjCCategoryDecl"
  | .CXCursor_ObjCProtocolDecl => "CXCursor_ObjCProtocolDecl"
  | .CXCursor_ObjCPropertyDecl => "CXCursor_ObjCPropertyDecl"
  | .CXCursor_ObjCIvarDecl => "CXCursor_ObjCIvarDecl"
  | .CXCursor_ObjCInstanceMethodDecl => "CXCursor_ObjCInstanceMethodDecl"
  | .CXCursor_ObjCClassMethodDecl => "CXCursor_ObjCClassMethodDecl"
  | .CXCursor_ObjCImplementationDecl => "CXCursor_ObjCImplementationDecl"
  | .CXCursor_ObjCCategoryImplDecl => "CXCursor_ObjCCategoryImplDecl"
  | .CXCursor_TypedefDecl => "CXCursor_TypedefDecl"
  | .CXCursor_CXXMethod => "CXCursor_CXXMethod"
  | .CXCursor_Namespace => "CXCursor_Namespace"
  | .CXCursor_LinkageSpec => "CXCursor_LinkageSpec"
  | .CXCursor_Constructor => "CXCursor_Constructor"
  | .CXCursor_Destructor => "CXCursor_Destructor"
  | .CXCursor_ConversionFunction => "CXCursor_ConversionFunction"
  | .CXCursor_TemplateTypeParameter => "CXCursor_TemplateTypeParameter"
  | .CXCursor_NonTypeTemplateParameter => "CXCursor_NonTypeTemplateParameter"
  | .CXCursor_TemplateTemplateParameter => "CXCursor_TemplateTemplateParameter"
  | .CXCursor_FunctionTemplate => "CXCursor_FunctionTemplate"
  | .CXCursor_ClassTemplate => "CXCursor_ClassTemplate"
  | .CXCursor_ClassTemplatePartialSpecialization => "CXCursor_ClassTemplatePartialSpecialization"
  | .CXCursor_NamespaceAlias => "CXCursor_NamespaceAlias"
  | .CXCursor_UsingDirective => "CXCursor_UsingDirective"
  | .CXCursor_UsingDeclaration => "CXCursor_UsingDeclaration"
  | .CXCursor_TypeAliasDecl => "CXCursor_TypeAliasDecl"
  | .CXCursor_ObjCSynthesizeDecl => "CXCursor_ObjCSynthesizeDecl"
  | .CXCursor_ObjCDynamicDecl => "CXCursor_ObjCDynamicDecl"
  | .CXCursor_CXXAccessSpecifier => "CXCursor_CXXAccessSpecifier"
  | .CXCursor_ObjCSuperClassRef => "CXCursor_ObjCSuperClassRef"
  | .CXCursor_ObjCProtocolRef => "CXCursor_ObjCProtocolRef"
  | .CXCursor_ObjCClassRef => "CXCursor_ObjCClassRef"
  | .CXCursor_TypeRef => "CXCursor_TypeRef"
  | .CXCursor_CXXBaseSpecifier => "CXCursor_CXXBaseSpecifier"
  | .CXCursor_TemplateRef => "CXCursor_TemplateRef"
  | .CXCursor_NamespaceRef => "CXCursor_NamespaceRef"
  | .CXCursor_MemberRef => "CXCursor_MemberRef"
  | .CXCursor_LabelRef => "CXCursor_LabelRef"
  | .CXCursor_OverloadedDeclRef => "CXCursor_OverloadedDeclRef"
  | .CXCursor_VariableRef => "CXCursor_VariableRef"
  | .CXCursor_InvalidFile => "CXCursor_InvalidFile"
  | .CXCursor_NoDeclFound => "CXCursor_NoDeclFound"
  | .CXCursor_NotImplemented => "CXCursor_NotImplemented"
  | .CXCursor_InvalidCode => "CXCursor_InvalidCode"
  | .CXCursor_UnexposedExpr => "CXCursor_UnexposedExpr"
  | .CXCursor_DeclRefExpr => "CXCursor_DeclRefExpr"
  | .CXCursor_MemberRefExpr => "CXCursor_MemberRefExpr"
  | .CXCursor_CallExpr => "CXCursor_CallExpr"
  | .CXCursor_ObjCMessageExpr => "CXCursor_ObjCMessageExpr"
  | .CXCursor_BlockExpr => "CXCursor_BlockExpr"
  | .CXCursor_IntegerLiteral => "CXCursor_IntegerLiteral"
  | .CXCursor_FloatingLiteral => "CXCursor_FloatingLiteral"
  | .CXCursor_ImaginaryLiteral => "CXCursor_ImaginaryLiteral"
  | .CXCursor_StringLiteral => "CXCursor_StringLiteral"
  | .CXCursor_CharacterLiteral => "CXCursor_CharacterLiteral"
  | .CXCursor_ParenExpr => "CXCursor_ParenExpr"
  | .CXCursor_UnaryOperator => "CXCursor_UnaryOperator"
  | .CXCursor_ArraySubscriptExpr => "CXCursor_ArraySubscriptExpr"
  | .CXCursor_BinaryOperator => "CXCursor_BinaryOperator"
  | .CXCursor_CompoundAssignOperator => "CXCursor_CompoundAssignOperator"
  | .CXCursor_ConditionalOperator => "CXCursor_ConditionalOperator"
  | .CXCursor_CStyleCastExpr => "CXCursor_CStyleCastExpr"
  | .CXCursor_CompoundLiteralExpr => "CXCursor_CompoundLiteralExpr"
  | .CXCursor_InitListExpr => "CXCursor_InitListExpr"
  | .CXCursor_AddrLabelExpr => "CXCursor_AddrLabelExpr"
  | .CXCursor_StmtExpr => "CXCursor_StmtExpr"
  | .CXCursor_GenericSelectionExpr => "CXCursor_GenericSelectionExpr"
  | .CXCursor_GNUNullExpr => "CXCursor_GNUNullExpr"
  | .CXCursor_CXXStaticCastExpr => "CXCursor_CXXStaticCastExpr"
  | .CXCursor_CXXDynamicCastExpr => "CXCursor_CXXDynamicCastExpr"
  | .CXCursor_CXXReinterpretCastExpr => "CXCursor_CXXReinterpretCastExpr"
  | .CXCursor_CXXConstCastExpr => "CXCursor_CXXConstCastExpr"
  | .CXCursor_CXXFunctionalCastExpr => "CXCursor_CXXFunctionalCastExpr"
  | .CXCursor_CXXTypeidExpr => "CXCursor_CXXTypeidExpr"
  | .CXCursor_CXXBoolLiteralExpr => "CXCursor_CXXBoolLiteralExpr"
  | .CXCursor_CXXNullPtrLiteralExpr => "CXCursor_CXXNullPtrLiteralExpr"
  | .CXCursor_CXXThisExpr => "CXCursor_CXXThisExpr"
  | .CXCursor_CXXThrowExpr => "CXCursor_CXXThrowExpr"
  | .CXCursor_CXXNewExpr => "CXCursor_CXXNewExpr"
  | .CXCursor_CXXDeleteExpr => "CXCursor_CXXDeleteExpr"
  | .CXCursor_UnaryExpr => "CXCursor_UnaryExpr"
  | .CXCursor_ObjCStringLiteral => "CXCursor_ObjCStringLiteral"
  | .CXCursor_ObjCEncodeExpr => "CXCursor_ObjCEncodeExpr"
  | .CXCursor_ObjCSelectorExpr => "CXCursor_ObjCSelectorExpr"
  | .CXCursor_ObjCProtocolExpr => "CXCursor_ObjCProtocolExpr"
  | .CXCursor_ObjCBridgedCastExpr => "CXCursor_ObjCBridgedCastExpr"
  | .CXCursor_PackExpansionExpr => "CXCursor_PackExpansionExpr"
  | .CXCursor_SizeOfPackExpr => "CXCursor_SizeOfPackExpr"
  | .CXCursor_LambdaExpr => "CXCursor_LambdaExpr"
  | .CXCursor_ObjCBoolLiteralExpr => "CXCursor_ObjCBoolLiteralExpr"
  | .CXCursor_ObjCSelfExpr => "CXCursor_ObjCSelfExpr"
  | .CXCursor_UnexposedStmt => "CXCursor_UnexposedStmt"
  | .CXCursor_LabelStmt => "CXCursor_LabelStmt"
  | .CXCursor_CompoundStmt => "CXCursor_CompoundStmt"
  | .CXCursor_CaseStmt => "CXCursor_CaseStmt"
  | .CXCursor_DefaultStmt => "CXCursor_DefaultStmt"
  | .CXCursor_IfStmt => "CXCursor_IfStmt"
  | .CXCursor_SwitchStmt => "CXCursor_SwitchStmt"
  | .CXCursor_WhileStmt => "CXCursor_WhileStmt"
  | .CXCursor_DoStmt => "CXCursor_DoStmt"
  | .CXCursor_ForStmt => "CXCursor_ForStmt"
  | .CXCursor_GotoStmt => "CXCursor_GotoStmt"
  | .CXCursor_IndirectGotoStmt => "CXCursor_IndirectGotoStmt"
  | .CXCursor_ContinueStmt => "CXCursor_ContinueStmt"
  | .CXCursor_BreakStmt => "CXCursor_BreakStmt"
  | .CXCursor_ReturnStmt => "CXCursor_ReturnStmt"
  | .CXCursor_GCCAsmStmt => "CXCursor_GCCAsmStmt"
  | .CXCursor_ObjCAtTryStmt => "CXCursor_ObjCAtTryStmt"
  | .CXCursor_ObjCAtCatchStmt => "CXCursor_ObjCAtCatchStmt"
  | .CXCursor_ObjCAtFinallyStmt => "CXCursor_ObjCAtFinallyStmt"
  | .CXCursor_ObjCAtThrowStmt => "CXCursor_ObjCAtThrowStmt"
  | .CXCursor_ObjCAtSynchronizedStmt => "CXCursor_ObjCAtSynchronizedStmt"
  | .CXCursor_ObjCAutoreleasePoolStmt => "CXCursor_ObjCAutoreleasePoolStmt"
  | .CXCursor_ObjCForCollectionStmt => "CXCursor_ObjCForCollectionStmt"
  | .CXCursor_CXXCatchStmt => "CXCursor_CXXCatchStmt"
  | .CXCursor_CXXTryStmt => "CXCursor_CXXTryStmt"
  | .CXCursor_CXXForRangeStmt => "CXCursor_CXXForRangeStmt"
  | .CXCursor_SEHTryStmt => "CXCursor_SEHTryStmt"
  | .CXCursor_SEHExceptStmt => "CXCursor_SEHExceptStmt"
  | .CXCursor_SEHFinallyStmt => "CXCursor_SEHFinallyStmt"
  | .CXCursor_MSAsmStmt => "CXCursor_MSAsmStmt"
  | .CXCursor_NullStmt => "CXCursor_NullStmt"
  | .CXCursor_DeclStmt => "CXCursor_DeclStmt"
  | .CXCursor_LastStmt => "CXCursor_LastStmt"
  | .CXCursor_TranslationUnit => "CXCursor_TranslationUnit"
  | .CXCursor_UnexposedAttr => "CXCursor_UnexposedAttr"
  | .CXCursor_IBActionAttr => "CXCursor_IBActionAttr"
  | .CXCursor_IBOutletAttr => "CXCursor_IBOutletAttr"
  | .CXCursor_IBOutletCollectionAttr => "CXCursor_IBOutletCollectionAttr"
  | .CXCursor_CXXFinalAttr => "CXCursor_CXXFinalAttr"
  | .CXCursor_CXXOverrideAttr => "CXCursor_CXXOverrideAttr"
  | .CXCursor_AnnotateAttr => "CXCursor_AnnotateAttr"
  | .CXCursor_AsmLabelAttr => "CXCursor_AsmLabelAttr"
  | .CXCursor_LastAttr => "CXCursor_LastAttr"
  | .CXCursor_PreprocessingDirective => "CXCursor_PreprocessingDirective"
  | .CXCursor_MacroDefinition => "CXCursor_MacroDefinition"
  | .CXCursor_MacroExpansion => "CXCursor_MacroExpansion"
  | .CXCursor_InclusionDirective => "CXCursor_InclusionDirective"
  | .CXCursor_ModuleImportDecl => "CXCursor_ModuleImportDecl"
  | .CXCursor_LastExtraDecl => "CXCursor_LastExtraDecl"

/-- A sample assignment of pairwise distinct integer values to the enumerators, laid out
like the native header: declarations from 1, references from 40, invalid kinds from 70,
expressions from 100, statements from 200, the translation unit at 300, attributes
from 400, preprocessing from 500, extra declarations from 600. -/
def sampleValue : CXCursorEnumerator → Int
  | .CXCursor_UnexposedDecl => 1
  | .CXCursor_StructDecl => 2
  | .CXCursor_UnionDecl => 3
  | .CXCursor_ClassDecl => 4
  | .CXCursor_EnumDecl => 5
  | .CXCursor_FieldDecl => 6
  | .CXCursor_EnumConstantDecl => 7
  | .CXCursor_FunctionDecl => 8
  | .CXCursor_VarDecl => 9
  | .CXCursor_ParmDecl => 10
  | .CXCursor_ObjCInterfaceDecl => 11
  | .CXCursor_ObjCCategoryDecl => 12
  | .CXCursor_ObjCProtocolDecl => 13
  | .CXCursor_ObjCPropertyDecl => 14
  | .CXCursor_ObjCIvarDecl => 15
  | .CXCursor_ObjCInstanceMethodDecl => 16
  | .CXCursor_ObjCClassMethodDecl => 17
  | .CXCursor_ObjCImplementationDecl => 18
  | .CXCursor_ObjCCategoryImplDecl => 19
  | .CXCursor_TypedefDecl => 20
  | .CXCursor_CXXMethod => 21
  | .CXCursor_Namespace => 22
  | .CXCursor_LinkageSpec => 23
  | .CXCursor_Constructor => 24
  | .CXCursor_Destructor => 25
  | .CXCursor_ConversionFunction => 26
  | .CXCursor_TemplateTypeParameter => 27
  | .CXCursor_NonTypeTemplateParameter => 28
  | .CXCursor_TemplateTemplateParameter => 29
  | .CXCursor_FunctionTemplate => 30
  | .CXCursor_ClassTemplate => 31
  | .CXCursor_ClassTemplatePartialSpecialization => 32
  | .CXCursor_NamespaceAlias => 33
  | .CXCursor_UsingDirective => 34
  | .CXCursor_UsingDeclaration => 35
  | .CXCursor_TypeAliasDecl => 36
  | .CXCursor_ObjCSynthesizeDecl => 37
  | .CXCursor_ObjCDynamicDecl => 38
  | .CXCursor_CXXAccessSpecifier => 39
  | .CXCursor_ObjCSuperClassRef => 40
  | .CXCursor_ObjCProtocolRef => 41
  | .CXCursor_ObjCClassRef => 42
  | .CXCursor_TypeRef => 43
  | .CXCursor_CXXBaseSpecifier => 44
  | .CXCursor_TemplateRef => 45
  | .CXCursor_NamespaceRef => 46
  | .CXCursor_MemberRef => 47
  | .CXCursor_LabelRef => 48
  | .CXCursor_OverloadedDeclRef => 49
  | .CXCursor_VariableRef => 50
  | .CXCursor_InvalidFile => 70
  | .CXCursor_NoDeclFound => 71
  | .CXCursor_NotImplemented => 72
  | .CXCursor_InvalidCode => 73
  | .CXCursor_UnexposedExpr => 100
  | .CXCursor_DeclRefExpr => 101
  | .CXCursor_MemberRefExpr => 102
  | .CXCursor_CallExpr => 103
  | .CXCursor_ObjCMessageExpr => 104
  | .CXCursor_BlockExpr => 105
  | .CXCursor_IntegerLiteral => 106
  | .CXCursor_FloatingLiteral => 107
  | .CXCursor_ImaginaryLiteral => 108
  | .CXCursor_StringLiteral => 109
  | .CXCursor_CharacterLiteral => 110
  | .CXCursor_ParenExpr => 111
  | .CXCursor_UnaryOperator => 112
  | .CXCursor_ArraySubscriptExpr => 113
  | .CXCursor_BinaryOperator => 114
  | .CXCursor_CompoundAssignOperator => 115
  | .CXCursor_ConditionalOperator => 116
  | .CXCursor_CStyleCastExpr => 117
  | .CXCursor_CompoundLiteralExpr => 118
  | .CXCursor_InitListExpr => 119
  | .CXCursor_AddrLabelExpr => 120
  | .CXCursor_StmtExpr => 121
  | .CXCursor_GenericSelectionExpr => 122
  | .CXCursor_GNUNullExpr => 123
  | .CXCursor_CXXStaticCastExpr => 124
  | .CXCursor_CXXDynamicCastExpr => 125
  | .CXCursor_CXXReinterpretCastExpr => 126
  | .CXCursor_CXXConstCastExpr => 127
  | .CXCursor_CXXFunctionalCastExpr => 128
  | .CXCursor_CXXTypeidExpr => 129
  | .CXCursor_CXXBoolLiteralExpr => 130
  | .CXCursor_CXXNullPtrLiteralExpr => 131
  | .CXCursor_CXXThisExpr => 132
  | .CXCursor_CXXThrowExpr => 133
  | .CXCursor_CXXNewExpr => 134
  | .CXCursor_CXXDeleteExpr => 135
  | .CXCursor_UnaryExpr => 136
  | .CXCursor_ObjCStringLiteral => 137
  | .CXCursor_ObjCEncodeExpr => 138
  | .CXCursor_ObjCSelectorExpr => 139
  | .CXCursor_ObjCProtocolExpr => 140
  | .CXCursor_ObjCBridgedCastExpr => 141
  | .CXCursor_PackExpansionExpr => 142
  | .CXCursor_SizeOfPackExpr => 143
  | .CXCursor_LambdaExpr => 144
  | .CXCursor_ObjCBoolLiteralExpr => 145
  | .CXCursor_ObjCSelfExpr => 146
  | .CXCursor_UnexposedStmt => 200
  | .CXCursor_LabelStmt => 201
  | .CXCursor_CompoundStmt => 202
  | .CXCursor_CaseStmt => 203
  | .CXCursor_DefaultStmt => 204
  | .CXCursor_IfStmt => 205
  | .CXCursor_SwitchStmt => 206
  | .CXCursor_WhileStmt => 207
  | .CXCursor_DoStmt => 208
  | .CXCursor_ForStmt => 209
  | .CXCursor_GotoStmt => 210
  | .CXCursor_IndirectGotoStmt => 211
  | .CXCursor_ContinueStmt => 212
  | .CXCursor_BreakStmt => 213
  | .CXCursor_ReturnStmt => 214
  | .CXCursor_GCCAsmStmt => 215
  | .CXCursor_ObjCAtTryStmt => 216
  | .CXCursor_ObjCAtCatchStmt => 217
  | .CXCursor_ObjCAtFinallyStmt => 218
  | .CXCursor_ObjCAtThrowStmt => 219
  | .CXCursor_ObjCAtSynchronizedStmt => 220
  | .CXCursor_ObjCAutoreleasePoolStmt => 221
  | .CXCursor_ObjCForCollectionStmt => 222
  | .CXCursor_CXXCatchStmt => 223
  | .CXCursor_CXXTryStmt => 224
  | .CXCursor_CXXForRangeStmt => 225
  | .CXCursor_SEHTryStmt => 226
  | .CXCursor_SEHExceptStmt => 227
  | .CXCursor_SEHFinallyStmt => 228
  | .CXCursor_MSAsmStmt => 229
  | .CXCursor_NullStmt => 230
  | .CXCursor_DeclStmt => 231
  | .CXCursor_LastStmt => 279
  | .CXCursor_TranslationUnit => 300
  | .CXCursor_UnexposedAttr => 400
  | .CXCursor_IBActionAttr => 401
  | .CXCursor_IBOutletAttr => 402
  | .CXCursor_IBOutletCollectionAttr => 403
  | .CXCursor_CXXFinalAttr => 404
  | .CXCursor_CXXOverrideAttr => 405
  | .CXCursor_AnnotateAttr => 406
  | .CXCursor_AsmLabelAttr => 407
  | .CXCursor_LastAttr => 419
  | .CXCursor_PreprocessingDirective => 500
  | .CXCursor_MacroDefinition => 501
  | .CXCursor_MacroExpansion => 502
  | .CXCursor_InclusionDirective => 503
  | .CXCursor_ModuleImportDecl => 600
  | .CXCursor_LastExtraDecl => 603

/-! ## Definitions used to state the properties -/

/-- The edit that iteration `i` of the fix-it loop pushes. -/
def fixItEdit (diagnostic : CXDiagnostic) (i : Nat) : lsTextEdit :=
  { range := (GetLsRangeForFixIt (clang_getDiagnosticFixIt diagnostic i).2).1
    newText := ((clang_getDiagnosticFixIt diagnostic i).1.ToString).1 }

/-- The native calls that iteration `i` of the fix-it loop makes, in order. -/
def fixItCalls (diagnostic : CXDiagnostic) (i : Nat) : List Call :=
  Call.clang_getDiagnosticFixIt diagnostic i ::
    (((clang_getDiagnosticFixIt diagnostic i).1.ToString).2 ++
      (GetLsRangeForFixIt (clang_getDiagnosticFixIt diagnostic i).2).2)

/-- The severity table as the specification words it: Ignored and Note give
Information, Warning gives Warning, Error and Fatal give Error. -/
def severityTable : CXDiagnosticSeverity → lsDiagnosticSeverity
  | .CXDiagnostic_Ignored => .Information
  | .CXDiagnostic_Note => .Information
  | .CXDiagnostic_Warning => .Warning
  | .CXDiagnostic_Error => .Error
  | .CXDiagnostic_Fatal => .Error

/-- Recognises a call of `clang_disposeDiagnostic`, on any handle. -/
def Call.isDisposeDiagnostic : Call → Bool
  | .clang_disposeDiagnostic _ => true
  | _ => false

/-- Recognises a call of `clang_disposeString`, on any handle. -/
def Call.isDisposeString : Call → Bool
  | .clang_disposeString _ => true
  | _ => false

/-! ## Sample inputs -/

/-- A file reference whose native name is `foo.cc`. -/
def sampleFile : CXFile := ⟨⟨some "foo.cc", 1⟩⟩

/-- A warning at line 12, column 7 of `foo.cc`, enabled by `-Wunused`, with two fix-its:
a replacement of (10, 5)-(10, 9) by `int`, and an insertion point at (11, 1) whose text
handle has no data. -/
def sampleDiagnostic : CXDiagnostic :=
  { location := ⟨sampleFile, 12, 7⟩
    spelling := ⟨some "unused variable", 2⟩
    option := ⟨some "-Wunused", 3⟩
    category := 2
    severity := .CXDiagnostic_Warning
    fixits := [(⟨some "int", 4⟩, ⟨⟨sampleFile, 10, 5⟩, ⟨sampleFile, 10, 9⟩⟩),
               (⟨none, 0⟩, ⟨⟨sampleFile, 11, 1⟩, ⟨sampleFile, 11, 1⟩⟩)] }

/-- The record built from `sampleDiagnostic` for the path `foo.cc`. -/
def sampleRecord : lsDiagnostic :=
  { range := ⟨⟨11, 7⟩, ⟨11, 7⟩⟩
    severity := .Warning
    code := 2
    message := "unused variable [-Wunused]"
    fixits_ := [⟨⟨⟨9, 4⟩, ⟨9, 9⟩⟩, "int"⟩, ⟨⟨⟨10, 0⟩, ⟨10, 1⟩⟩, ""⟩] }

/-- The same diagnostic as `sampleDiagnostic` without an enabling option. -/
def sampleDiagnosticNoFlag : CXDiagnostic :=
  { sampleDiagnostic with option := ⟨none, 0⟩, severity := .CXDiagnostic_Fatal, fixits := [] }

/-- The record built from `sampleDiagnosticNoFlag` for the path `foo.cc`. -/
def sampleRecordNoFlag : lsDiagnostic :=
  { range := ⟨⟨11, 7⟩, ⟨11, 7⟩⟩
    severity := .Error
    code := 2
    message := "unused variable"
    fixits_ := [] }

/-! ## Definitions used to state the properties on handles, positions and order -/

/-- Recognises the native calls made on a string handle: `clang_getCString` and
`clang_disposeString`. -/
def Call.isStringCall : Call → Bool
  | .clang_getCString _ => true
  | .clang_disposeString _ => true
  | _ => false

/-- Whether a string handle carries data (`data != nullptr`). -/
def CXString.hasData (cx_string : CXString) : Bool := cx_string.data.isSome

/-- Lexicographic "less than or equal" on (line, column) pairs: by line, then column. -/
def lexLe (l1 c1 l2 c2 : Nat) : Bool :=
  decide (l1 < l2) || (decide (l1 = l2) && decide (c1 ≤ c2))

/-- Lexicographic "strictly less than" on (line, column) pairs: by line, then column. -/
def lexLt (l1 c1 l2 c2 : Nat) : Bool :=
  decide (l1 < l2) || (decide (l1 = l2) && decide (c1 < c2))

/-- The string handle that a native call hands out, for the four calls of
`clang_utils.cc` that return a `CXString`: `clang_getFileName`,
`clang_getDiagnosticSpelling`, `clang_getDiagnosticOption` and
`clang_getDiagnosticFixIt`; `none` for every other call. -/
def Call.obtainedHandle : Call → Option CXString
  | .clang_getFileName file => some file.name
  | .clang_getDiagnosticSpelling diagnostic => some diagnostic.spelling
  | .clang_getDiagnosticOption diagnostic => some diagnostic.option
  | .clang_getDiagnosticFixIt diagnostic i =>
      some (ClangUtils.clang_getDiagnosticFixIt diagnostic i).1
  | _ => none

/-- Recognises the calls that concern string handles: the four that hand one out, and
`clang_getCString` and `clang_disposeString`. -/
def Call.isHandleCall (c : Call) : Bool :=
  c.obtainedHandle.isSome || c.isStringCall

/-- For a call that hands out a string handle: that call followed by the native calls of
one `ToString` of the handle.  Empty for every other call. -/
def Call.handleLifecycle (c : Call) : List Call :=
  match c.obtainedHandle with
  | some cx_string => c :: (cx_string.ToString).2
  | none => []

/-! ## Lemmas on the fix-it loop and the two exits -/

theorem fixItLoop_eq (d : CXDiagnostic) (k : Nat) :
    ∀ (i : Nat) (st : lsDiagnostic × List Call),
      fixItLoop d k i st =
        ({ st.1 with fixits_ := st.1.fixits_ ++ (List.range' i k).map (fixItEdit d) },
         st.2 ++ ((List.range' i k).map (fixItCalls d)).flatten) := by
  induction k with
  | zero => intro i st; simp [fixItLoop]
  | succ k ih =>
    intro i st
    simp [fixItLoop, ih, fixItBody, fixItEdit, fixItCalls, List.range'_succ]

theorem fixItEdit_map (d : CXDiagnostic) :
    (List.range' 0 d.fixits.length).map (fixItEdit d) =
      d.fixits.map (fun f => { range := (GetLsRangeForFixIt f.2).1, newText := (f.1.ToString).1 }) := by
  apply List.ext_getElem
  · simp
  · intro n h1 h2
    simp at h2
    simp [fixItEdit, clang_getDiagnosticFixIt, List.getD, h2]


theorem BuildAndDisposeDiagnostic_rejected (NP : String → String) (d : CXDiagnostic)
    (p : String) (h : p ≠ (FileName NP d.location.file).1) :
    BuildAndDisposeDiagnostic NP d p =
      (none, [Call.clang_getDiagnosticLocation d, Call.clang_getSpellingLocation d.location] ++
        (FileName NP d.location.file).2 ++ [Call.clang_disposeDiagnostic d]) := by
  simp [BuildAndDisposeDiagnostic, h]

theorem BuildAndDisposeDiagnostic_accepted (NP : String → String) (d : CXDiagnostic)
    (p : String) (h : p = (FileName NP d.location.file).1) :
    (BuildAndDisposeDiagnostic NP d p).1 = some
      { range := ⟨⟨usub d.location.line 1, d.location.column⟩,
                  ⟨usub d.location.line 1, d.location.column⟩⟩
        severity := severityTable d.severity
        code := d.category
        message :=
          if (d.option.ToString).1 ≠ "" then
            (d.spelling.ToString).1 ++ (" [" ++ (d.option.ToString).1 ++ "]")
          else (d.spelling.ToString).1
        fixits_ := d.fixits.map
          (fun f => { range := (GetLsRangeForFixIt f.2).1, newText := (f.1.ToString).1 }) } := by
  simp only [BuildAndDisposeDiagnostic, fixItLoop_eq, clang_getDiagnosticNumFixIts, h,
    ne_eq, not_true_eq_false, if_false, List.nil_append, fixItEdit_map]
  cases d.severity <;> rfl

theorem BuildAndDisposeDiagnostic_accepted_calls (NP : String → String) (d : CXDiagnostic)
    (p : String) (h : p = (FileName NP d.location.file).1) :
    (BuildAndDisposeDiagnostic NP d p).2 =
      [Call.clang_getDiagnosticLocation d, Call.clang_getSpellingLocation d.location] ++
        (FileName NP d.location.file).2 ++
        [Call.clang_getDiagnosticSpelling d] ++ (d.spelling.ToString).2 ++
        [Call.clang_getDiagnosticOption d] ++ (d.option.ToString).2 ++
        [Call.clang_getDiagnosticCategory d, Call.clang_getDiagnosticSeverity d,
          Call.clang_getDiagnosticNumFixIts d] ++
        ((List.range' 0 d.fixits.length).map (fixItCalls d)).flatten ++
        [Call.clang_disposeDiagnostic d] := by
  simp [BuildAndDisposeDiagnostic, fixItLoop_eq, clang_getDiagnosticNumFixIts, h]

theorem ToString_calls_noDisposeDiagnostic (s : CXString) :
    (s.ToString).2.filter Call.isDisposeDiagnostic = [] := by
  unfold CXString.ToString
  cases s.data <;> simp [Call.isDisposeDiagnostic]

theorem FileName_calls_noDisposeDiagnostic (NP : String → String) (f : CXFile) :
    (FileName NP f).2.filter Call.isDisposeDiagnostic = [] := by
  simp [FileName, Call.isDisposeDiagnostic, ToString_calls_noDisposeDiagnostic]

theorem fixItCalls_noDisposeDiagnostic (d : CXDiagnostic) (l : List Nat) :
    ((l.map (fixItCalls d)).flatten).filter Call.isDisposeDiagnostic = [] := by
  induction l with
  | nil => simp
  | cons i l ih =>
    simp [fixItCalls, GetLsRangeForFixIt, Call.isDisposeDiagnostic,
      ToString_calls_noDisposeDiagnostic, ih]

/-! ## Properties of `BuildAndDisposeDiagnostic`, `GetLsRangeForFixIt` and `ToString(CXString)` -/

/-- Every record that `BuildAndDisposeDiagnostic` returns is given in closed form by the
diagnostic it was built from. -/
theorem BuildAndDisposeDiagnostic_record (NP : String → String) (d : CXDiagnostic)
    (p : String) (r : lsDiagnostic) (h : (BuildAndDisposeDiagnostic NP d p).1 = some r) :
    r =
      { range := ⟨⟨usub d.location.line 1, d.location.column⟩,
                  ⟨usub d.location.line 1, d.location.column⟩⟩
        severity := severityTable d.severity
        code := d.category
        message :=
          if (d.option.ToString).1 ≠ "" then
            (d.spelling.ToString).1 ++ (" [" ++ (d.option.ToString).1 ++ "]")
          else (d.spelling.ToString).1
        fixits_ := d.fixits.map
          (fun f => { range := (GetLsRangeForFixIt f.2).1, newText := (f.1.ToString).1 }) } := by
  by_cases hp : p = (FileName NP d.location.file).1
  · rw [BuildAndDisposeDiagnostic_accepted NP d p hp] at h
    exact (Option.some.inj h).symm
  · rw [BuildAndDisposeDiagnostic_rejected NP d p hp] at h
    cases h

/-- Unsigned decrement is the ordinary decrement on `1 .. 2 ^ 32 - 1`. -/
theorem usub_one_of_pos (n : Nat) (h1 : 1 ≤ n) (h2 : n < 4294967296) : usub n 1 = n - 1 := by
  unfold usub UINT_RANGE
  omega

/-- C1: `BuildAndDisposeDiagnostic(d, p)` returns a record if and only if the normalized
file name of the location of `d` equals `p`, returns nothing if and only if they differ
(there is no third outcome), and that file name is `NormalizePath` applied to the native
file name (the empty text when the name handle has no data). -/
theorem BuildAndDisposeDiagnostic_some_iff (NormalizePath : String → String)
    (d : CXDiagnostic) (p : String) :
    ((∃ r, (BuildAndDisposeDiagnostic NormalizePath d p).1 = some r) ↔
        (FileName NormalizePath d.location.file).1 = p) ∧
      ((BuildAndDisposeDiagnostic NormalizePath d p).1 = none ↔
        (FileName NormalizePath d.location.file).1 ≠ p) ∧
      (FileName NormalizePath d.location.file).1 =
        NormalizePath (d.location.file.name.data.getD "") := by
  have hname : (FileName NormalizePath d.location.file).1 =
      NormalizePath (d.location.file.name.data.getD "") := by
    rcases hd : d.location.file.name.data with _ | s <;>
      simp [FileName, CXString.ToString, hd]
  refine ⟨?_, ?_, hname⟩
  · by_cases h : p = (FileName NormalizePath d.location.file).1
    · rw [BuildAndDisposeDiagnostic_accepted NormalizePath d p h]
      simp [h]
    · rw [BuildAndDisposeDiagnostic_rejected NormalizePath d p h]
      simp [Ne.symm h]
  · by_cases h : p = (FileName NormalizePath d.location.file).1
    · rw [BuildAndDisposeDiagnostic_accepted NormalizePath d p h]
      simp [h]
    · rw [BuildAndDisposeDiagnostic_rejected NormalizePath d p h]
      simp [Ne.symm h]

/-- C2: in one call of `BuildAndDisposeDiagnostic`, on the filtered path and on the
accepted path alike, the calls of `clang_disposeDiagnostic` are exactly one call, made on
the diagnostic handle: the handle is disposed once, not zero times and not twice. -/
theorem BuildAndDisposeDiagnostic_disposes_once (NormalizePath : String → String)
    (d : CXDiagnostic) (p : String) :
    (BuildAndDisposeDiagnostic NormalizePath d p).2.filter Call.isDisposeDiagnostic =
        [Call.clang_disposeDiagnostic d] ∧
      (BuildAndDisposeDiagnostic NormalizePath d p).2.count (Call.clang_disposeDiagnostic d) = 1 := by
  have hfilter : (BuildAndDisposeDiagnostic NormalizePath d p).2.filter Call.isDisposeDiagnostic =
        [Call.clang_disposeDiagnostic d] := by
    by_cases h : p = (FileName NormalizePath d.location.file).1
    · rw [BuildAndDisposeDiagnostic_accepted_calls NormalizePath d p h]
      simp only [List.filter_append, FileName_calls_noDisposeDiagnostic,
        ToString_calls_noDisposeDiagnostic, fixItCalls_noDisposeDiagnostic,
        List.filter_cons, List.filter_nil, Call.isDisposeDiagnostic, List.append_nil,
        List.nil_append]
      simp
    · rw [BuildAndDisposeDiagnostic_rejected NormalizePath d p h]
      simp [List.filter_append, FileName_calls_noDisposeDiagnostic, Call.isDisposeDiagnostic]
  refine ⟨hfilter, ?_⟩
  rw [← List.count_filter (show Call.isDisposeDiagnostic (Call.clang_disposeDiagnostic d) = true
    from rfl), hfilter]
  simp

/-- C3: for a diagnostic accepted by `BuildAndDisposeDiagnostic` whose native location is
(line, column), the range of the record is a point: start and end are equal, and both are
the position (line - 1, column), where `line - 1` is the `unsigned` decrement (the
ordinary `line - 1` for every line from 1 on) and the column is not decremented. -/
theorem BuildAndDisposeDiagnostic_point_range (NormalizePath : String → String)
    (d : CXDiagnostic) (p : String) (r : lsDiagnostic)
    (h : (BuildAndDisposeDiagnostic NormalizePath d p).1 = some r) :
    r.range.start = r.range.end_ ∧
      r.range.start = ⟨usub d.location.line 1, d.location.column⟩ ∧
      r.range.end_ = ⟨usub d.location.line 1, d.location.column⟩ ∧
      (1 ≤ d.location.line → d.location.line < 4294967296 →
        r.range.start = ⟨d.location.line - 1, d.location.column⟩) := by
  have hr := BuildAndDisposeDiagnostic_record NormalizePath d p r h
  subst hr
  refine ⟨rfl, rfl, rfl, ?_⟩
  intro h1 h2
  simp only [usub_one_of_pos _ h1 h2]

/-- Witness of C3 on `sampleDiagnostic`: location (12, 7) gives the point (11, 7). -/
theorem BuildAndDisposeDiagnostic_point_range_witness :
    sampleRecord.range.start = sampleRecord.range.end_ ∧
      sampleRecord.range.start = ⟨usub 12 1, 7⟩ ∧
      sampleRecord.range.end_ = ⟨usub 12 1, 7⟩ ∧
      (1 ≤ 12 → 12 < 4294967296 → sampleRecord.range.start = ⟨12 - 1, 7⟩) :=
  BuildAndDisposeDiagnostic_point_range id sampleDiagnostic "foo.cc" sampleRecord (by decide)

/-- C4: for a replacement range with native start (sl, sc) and native end (el, ec),
`GetLsRangeForFixIt` returns start (sl - 1, sc - 1) and end (el - 1, ec), the decrements
being `unsigned` ones (the ordinary `n - 1` for `1 ≤ n < 2 ^ 32`, and `2 ^ 32 - 1` at 0);
the end column is not decremented.  Native (10, 5)-(10, 9) gives (9, 4)-(9, 9). -/
theorem GetLsRangeForFixIt_convention (fs fe : CXFile) (sl sc el ec : Nat) :
    (GetLsRangeForFixIt ⟨⟨fs, sl, sc⟩, ⟨fe, el, ec⟩⟩).1 =
        ⟨⟨usub sl 1, usub sc 1⟩, ⟨usub el 1, ec⟩⟩ ∧
      (∀ n : Nat, 1 ≤ n → n < 4294967296 → usub n 1 = n - 1) ∧
      usub 0 1 = 4294967295 ∧
      (GetLsRangeForFixIt ⟨⟨fs, 10, 5⟩, ⟨fe, 10, 9⟩⟩).1 = ⟨⟨9, 4⟩, ⟨9, 9⟩⟩ := by
  refine ⟨rfl, usub_one_of_pos, ?_, ?_⟩
  · norm_num [usub, UINT_RANGE]
  · norm_num [GetLsRangeForFixIt, usub, UINT_RANGE]

/-- C5: an accepted diagnostic carrying N fix-its gives a record with exactly N edits, in
index order; edit `i` has the text extracted from the text handle of fix-it `i` and the
range that `GetLsRangeForFixIt` gives for the replacement range of fix-it `i`, and so
depends on no other fix-it. -/
theorem BuildAndDisposeDiagnostic_fixits (NormalizePath : String → String)
    (d : CXDiagnostic) (p : String) (r : lsDiagnostic)
    (h : (BuildAndDisposeDiagnostic NormalizePath d p).1 = some r) :
    r.fixits_.length = d.fixits.length ∧
      (∀ i : Nat, ∀ f : CXString × CXSourceRange, d.fixits[i]? = some f →
        r.fixits_[i]? =
          some { range := (GetLsRangeForFixIt f.2).1, newText := (f.1.ToString).1 }) ∧
      r.fixits_ = d.fixits.map
        (fun f => { range := (GetLsRangeForFixIt f.2).1, newText := (f.1.ToString).1 }) := by
  have hr := BuildAndDisposeDiagnostic_record NormalizePath d p r h
  subst hr
  refine ⟨by simp, ?_, rfl⟩
  intro i f hf
  simp [List.getElem?_map, hf]

/-- Witness of C5 on `sampleDiagnostic`: two fix-its give two edits in the same order. -/
theorem BuildAndDisposeDiagnostic_fixits_witness :
    sampleRecord.fixits_.length = sampleDiagnostic.fixits.length ∧
      (∀ i : Nat, ∀ f : CXString × CXSourceRange, sampleDiagnostic.fixits[i]? = some f →
        sampleRecord.fixits_[i]? =
          some { range := (GetLsRangeForFixIt f.2).1, newText := (f.1.ToString).1 }) ∧
      sampleRecord.fixits_ = sampleDiagnostic.fixits.map
        (fun f => { range := (GetLsRangeForFixIt f.2).1, newText := (f.1.ToString).1 }) :=
  BuildAndDisposeDiagnostic_fixits id sampleDiagnostic "foo.cc" sampleRecord (by decide)

/-- C6: for an accepted diagnostic with spelling text m and enabling-flag text f, the
message of the record is m when f is empty, and m followed by a space, an opening
bracket, f and a closing bracket when f is not empty. -/
theorem BuildAndDisposeDiagnostic_message (NormalizePath : String → String)
    (d : CXDiagnostic) (p : String) (r : lsDiagnostic)
    (h : (BuildAndDisposeDiagnostic NormalizePath d p).1 = some r) :
    ((d.option.ToString).1 = "" → r.message = (d.spelling.ToString).1) ∧
      ((d.option.ToString).1 ≠ "" →
        r.message = (d.spelling.ToString).1 ++ " [" ++ (d.option.ToString).1 ++ "]") := by
  have hr := BuildAndDisposeDiagnostic_record NormalizePath d p r h
  subst hr
  constructor
  · intro hf
    simp [hf]
  · intro hf
    simp [hf, String.append_assoc]

/-- Witness of C6: the flag `-Wunused` gives the suffix ` [-Wunused]`, and a diagnostic
without flag keeps its spelling. -/
theorem BuildAndDisposeDiagnostic_message_witness :
    sampleRecord.message = "unused variable" ++ " [" ++ "-Wunused" ++ "]" ∧
      sampleRecordNoFlag.message = "unused variable" :=
  ⟨(BuildAndDisposeDiagnostic_message id sampleDiagnostic "foo.cc" sampleRecord
      (by decide)).2 (by decide),
   (BuildAndDisposeDiagnostic_message id sampleDiagnosticNoFlag "foo.cc" sampleRecordNoFlag
      (by decide)).1 (by decide)⟩

/-- C7: the severity of a record is fixed by the level of the diagnostic alone, through
the table Ignored -> Information, Note -> Information, Warning -> Warning,
Error -> Error, Fatal -> Error; each of the five levels is mapped, and the severity is
one of Information, Warning, Error. -/
theorem BuildAndDisposeDiagnostic_severity (NormalizePath : String → String)
    (d : CXDiagnostic) (p : String) (r : lsDiagnostic)
    (h : (BuildAndDisposeDiagnostic NormalizePath d p).1 = some r) :
    (d.severity = .CXDiagnostic_Ignored → r.severity = .Information) ∧
      (d.severity = .CXDiagnostic_Note → r.severity = .Information) ∧
      (d.severity = .CXDiagnostic_Warning → r.severity = .Warning) ∧
      (d.severity = .CXDiagnostic_Error → r.severity = .Error) ∧
      (d.severity = .CXDiagnostic_Fatal → r.severity = .Error) ∧
      (r.severity = .Information ∨ r.severity = .Warning ∨ r.severity = .Error) ∧
      r.severity = severityTable d.severity := by
  have hr := BuildAndDisposeDiagnostic_record NormalizePath d p r h
  subst hr
  refine ⟨?_, ?_, ?_, ?_, ?_, ?_, rfl⟩
  · intro hs; simp [hs, severityTable]
  · intro hs; simp [hs, severityTable]
  · intro hs; simp [hs, severityTable]
  · intro hs; simp [hs, severityTable]
  · intro hs; simp [hs, severityTable]
  · cases d.severity <;> simp [severityTable]

/-- Witness of C7: the sample warning is reported as Warning, the sample fatal error as
Error. -/
theorem BuildAndDisposeDiagnostic_severity_witness :
    sampleRecord.severity = .Warning ∧ sampleRecordNoFlag.severity = .Error :=
  ⟨(BuildAndDisposeDiagnostic_severity id sampleDiagnostic "foo.cc" sampleRecord
      (by decide)).2.2.1 rfl,
   (BuildAndDisposeDiagnostic_severity id sampleDiagnosticNoFlag "foo.cc" sampleRecordNoFlag
      (by decide)).2.2.2.2.1 rfl⟩

/-- C10: `ToString(CXString h)` on a handle without data returns the empty text and makes
no native call at all, hence no disposal; on a handle with data it returns exactly the
content, and its calls of `clang_disposeString` are exactly one call, made on `h`. -/
theorem ToString_CXString_dispose (h : CXString) :
    (h.data = none → h.ToString = ("", [])) ∧
      (∀ s : String, h.data = some s →
        (h.ToString).1 = s ∧
        (h.ToString).2.filter Call.isDisposeString = [Call.clang_disposeString h] ∧
        (h.ToString).2.count (Call.clang_disposeString h) = 1) := by
  constructor
  · intro hd
    simp [CXString.ToString, hd]
  · intro s hd
    have hc : (h.ToString).2 = [Call.clang_getCString h, Call.clang_disposeString h] := by
      simp [CXString.ToString, hd]
    refine ⟨by simp [CXString.ToString, hd], ?_, ?_⟩
    · rw [hc]
      simp [Call.isDisposeString]
    · rw [hc]
      simp [List.count_cons]

/-- Witness of C10: the handle without data gives the empty text and no call; the handle
holding `int` gives `int` and one disposal. -/
theorem ToString_CXString_dispose_witness :
    (CXString.ToString ⟨none, 0⟩ = ("", [])) ∧
      ((CXString.ToString ⟨some "int", 4⟩).1 = "int" ∧
        (CXString.ToString ⟨some "int", 4⟩).2.filter Call.isDisposeString =
          [Call.clang_disposeString ⟨some "int", 4⟩] ∧
        (CXString.ToString ⟨some "int", 4⟩).2.count
          (Call.clang_disposeString ⟨some "int", 4⟩) = 1) :=
  ⟨(ToString_CXString_dispose ⟨none, 0⟩).1 rfl,
   (ToString_CXString_dispose ⟨some "int", 4⟩).2 "int" rfl⟩

/-! ## Properties of `ToString(CXCursorKind)` -/

/-- With pairwise distinct enumerator values, looking a value up in the table of cases
finds the case of its own enumerator. -/
theorem find_case_of_injective (value : CXCursorEnumerator → Int)
    (hinj : Function.Injective value) (e : CXCursorEnumerator)
    (cases : List (CXCursorEnumerator × String)) :
    cases.find? (fun c => value c.1 = value e) = cases.find? (fun c => c.1 = e) := by
  have hfun : (fun c : CXCursorEnumerator × String => decide (value c.1 = value e)) =
      (fun c : CXCursorEnumerator × String => decide (c.1 = e)) := by
    funext c
    simp [hinj.eq_iff]
  rw [hfun]

/-- Every enumerator has its case in the table, returning its identifier without the
first nine characters. -/
theorem find_case_identifier (e : CXCursorEnumerator) :
    ∃ c, cursorKindCases.find? (fun c => c.1 = e) = some c ∧
      "CXCursor_" ++ c.2 = e.identifier ∧ c.2 = e.identifier.drop 9 := by
  cases e <;> exact ⟨_, rfl, by decide, by decide⟩

/-- The sample values are pairwise distinct. -/
theorem sampleValue_injective : Function.Injective sampleValue := by
  have hleft : ∀ e, (cursorKindCases.find? (fun c => sampleValue c.1 = sampleValue e)).map
      (fun c => c.1) = some e := by
    intro e
    cases e <;> rfl
  intro a b hab
  have ha := hleft a
  rw [hab, hleft b] at ha
  exact (Option.some.inj ha).symm

set_option maxRecDepth 100000 in
/-- No case of the table has the sample value 0. -/
theorem sampleValue_ne_zero : ∀ c ∈ cursorKindCases, sampleValue c.1 ≠ 0 := by
  decide

/-- C8: for every cursor kind that has a case in the switch of `ToString(CXCursorKind)`,
the returned name is the identifier of that kind without the `CXCursor_` prefix: the
prefix put before the name gives the identifier back, and the name is the identifier
less its first nine characters.  The enumerator values are those of the native header,
pairwise distinct as the labels of one switch are. -/
theorem CXCursorKind_ToString_name (value : CXCursorEnumerator → Int)
    (hinj : Function.Injective value) (e : CXCursorEnumerator) :
    "CXCursor_" ++ CXCursorKind.ToString value (value e) = e.identifier ∧
      CXCursorKind.ToString value (value e) = e.identifier.drop 9 := by
  obtain ⟨c, hc, h1, h2⟩ := find_case_identifier e
  unfold CXCursorKind.ToString
  rw [find_case_of_injective value hinj e, hc]
  exact ⟨h1, h2⟩

/-- Witness of C8: the code of a function declaration returns `FunctionDecl`. -/
theorem CXCursorKind_ToString_name_witness :
    "CXCursor_" ++ CXCursorKind.ToString sampleValue 8 = "CXCursor_FunctionDecl" ∧
      CXCursorKind.ToString sampleValue 8 = "CXCursor_FunctionDecl".drop 9 :=
  CXCursorKind_ToString_name sampleValue sampleValue_injective .CXCursor_FunctionDecl

/-- C9: `ToString(CXCursorKind)` returns the literal `<unknown kind>` for every integer
code that no case of the table has; and for every code whatever it returns a name,
which is this literal or the literal of a case with that code. -/
theorem CXCursorKind_ToString_unknown (value : CXCursorEnumerator → Int) (kind : Int)
    (h : ∀ c ∈ cursorKindCases, value c.1 ≠ kind) :
    CXCursorKind.ToString value kind = "<unknown kind>" ∧
      (∀ k : Int, CXCursorKind.ToString value k = "<unknown kind>" ∨
        ∃ c ∈ cursorKindCases, value c.1 = k ∧ CXCursorKind.ToString value k = c.2) := by
  constructor
  · have hnone : cursorKindCases.find? (fun c => value c.1 = kind) = none := by
      rw [List.find?_eq_none]
      intro c hc
      simpa using h c hc
    unfold CXCursorKind.ToString
    rw [hnone]
  · intro k
    unfold CXCursorKind.ToString
    rcases hfind : cursorKindCases.find? (fun c => value c.1 = k) with _ | c
    · exact Or.inl (by rw [hfind])
    · refine Or.inr ⟨c, List.mem_of_find?_eq_some hfind, ?_, by rw [hfind]⟩
      simpa using List.find?_some hfind

/-- Witness of C9: no case has the code 0, and code 0 is named `<unknown kind>`. -/
theorem CXCursorKind_ToString_unknown_witness :
    CXCursorKind.ToString sampleValue 0 = "<unknown kind>" ∧
      (∀ k : Int, CXCursorKind.ToString sampleValue k = "<unknown kind>" ∨
        ∃ c ∈ cursorKindCases, sampleValue c.1 = k ∧
          CXCursorKind.ToString sampleValue k = c.2) :=
  CXCursorKind_ToString_unknown sampleValue 0 sampleValue_ne_zero

/-! ## Properties of codes, positions, string handles and call order -/

/-- Reading the fix-its by index, as the loop does, visits the list of fix-its in
order. -/
theorem fixIt_range_map {α : Type} (d : CXDiagnostic) (g : CXString × CXSourceRange → α) :
    (List.range' 0 d.fixits.length).map (fun i => g (clang_getDiagnosticFixIt d i)) =
      d.fixits.map g := by
  apply List.ext_getElem
  · simp
  · intro n h1 h2
    simp at h2
    simp [clang_getDiagnosticFixIt, List.getD, h2]

/-- Filtering a concatenation of lists filters each list. -/
theorem filter_flatten_map {α β : Type} (q : β → Bool) (f : α → List β) (l : List α) :
    ((l.map f).flatten).filter q = (l.map (fun a => (f a).filter q)).flatten := by
  induction l with
  | nil => rfl
  | cons a l ih => simp [List.filter_append, ih]

/-- The disposals made by `ToString(CXString)`: one on a handle with data, none on a
handle without. -/
theorem ToString_calls_isDisposeString (s : CXString) :
    (s.ToString).2.filter Call.isDisposeString =
      ([s].filter CXString.hasData).map Call.clang_disposeString := by
  rcases hd : s.data with _ | t <;>
    simp [CXString.ToString, hd, Call.isDisposeString, CXString.hasData, List.filter_cons]

/-- The calls of an accepted run, with the fix-it calls read off the list of fix-its. -/
theorem BuildAndDisposeDiagnostic_accepted_calls_list (NP : String → String)
    (d : CXDiagnostic) (p : String) (h : p = (FileName NP d.location.file).1) :
    (BuildAndDisposeDiagnostic NP d p).2 =
      [Call.clang_getDiagnosticLocation d, Call.clang_getSpellingLocation d.location,
        Call.clang_getFileName d.location.file] ++ (d.location.file.name.ToString).2 ++
        [Call.clang_getDiagnosticSpelling d] ++ (d.spelling.ToString).2 ++
        [Call.clang_getDiagnosticOption d] ++ (d.option.ToString).2 ++
        [Call.clang_getDiagnosticCategory d, Call.clang_getDiagnosticSeverity d,
          Call.clang_getDiagnosticNumFixIts d] ++
        ((List.range' 0 d.fixits.length).map (fixItCalls d)).flatten ++
        [Call.clang_disposeDiagnostic d] := by
  rw [BuildAndDisposeDiagnostic_accepted_calls NP d p h]
  simp [FileName]

/-- The calls of a filtered run. -/
theorem BuildAndDisposeDiagnostic_rejected_calls_list (NP : String → String)
    (d : CXDiagnostic) (p : String) (h : p ≠ (FileName NP d.location.file).1) :
    (BuildAndDisposeDiagnostic NP d p).2 =
      [Call.clang_getDiagnosticLocation d, Call.clang_getSpellingLocation d.location,
        Call.clang_getFileName d.location.file] ++ (d.location.file.name.ToString).2 ++
        [Call.clang_disposeDiagnostic d] := by
  rw [BuildAndDisposeDiagnostic_rejected NP d p h]
  simp [FileName]

/-- The disposals of string handles made by the fix-it loop are those of the fix-it
texts that carry data, in order. -/
theorem fixItCalls_isDisposeString (d : CXDiagnostic) :
    (((List.range' 0 d.fixits.length).map (fixItCalls d)).flatten).filter
        Call.isDisposeString =
      (((d.fixits.map Prod.fst)).filter CXString.hasData).map Call.clang_disposeString := by
  rw [filter_flatten_map]
  have hfun : (fun i => (fixItCalls d i).filter Call.isDisposeString) =
      (fun i => (fun f : CXString × CXSourceRange =>
          ([f.1].filter CXString.hasData).map Call.clang_disposeString)
        (clang_getDiagnosticFixIt d i)) := by
    funext i
    simp only [fixItCalls, List.filter_cons, List.filter_append,
      ToString_calls_isDisposeString]
    simp [GetLsRangeForFixIt, Call.isDisposeString]
  rw [hfun, fixIt_range_map d
    (fun f => ([f.1].filter CXString.hasData).map Call.clang_disposeString)]
  induction d.fixits with
  | nil => rfl
  | cons f l ih =>
    rw [List.map_cons, List.flatten_cons, ih]
    cases hf : f.1.hasData <;> simp [List.filter_cons, hf]

/-- C11: for an accepted diagnostic the code of the record is the numeric category of
the diagnostic, unchanged, whatever its value. -/
theorem BuildAndDisposeDiagnostic_code (NormalizePath : String → String)
    (d : CXDiagnostic) (p : String) (r : lsDiagnostic)
    (h : (BuildAndDisposeDiagnostic NormalizePath d p).1 = some r) :
    r.code = d.category := by
  have hr := BuildAndDisposeDiagnostic_record NormalizePath d p r h
  subst hr
  rfl

/-- Witness of C11: the sample diagnostic of category 2 gives the code 2. -/
theorem BuildAndDisposeDiagnostic_code_witness :
    sampleRecord.code = sampleDiagnostic.category :=
  BuildAndDisposeDiagnostic_code id sampleDiagnostic "foo.cc" sampleRecord (by decide)

/-- The native calls of `ToString(CXString)` concern string handles. -/
theorem ToString_calls_isHandleCall (s : CXString) :
    (s.ToString).2.filter Call.isHandleCall = (s.ToString).2 := by
  rcases hd : s.data with _ | t <;>
    simp [CXString.ToString, hd, Call.isHandleCall, Call.isStringCall, Call.obtainedHandle]

/-- No native call of `ToString(CXString)` hands out a string handle. -/
theorem ToString_calls_obtained (s : CXString) :
    (s.ToString).2.filterMap Call.obtainedHandle = [] := by
  rcases hd : s.data with _ | t <;> simp [CXString.ToString, hd, Call.obtainedHandle]

/-- No native call of `ToString(CXString)` starts the life of a string handle. -/
theorem ToString_calls_lifecycle (s : CXString) :
    ((s.ToString).2.map Call.handleLifecycle).flatten = [] := by
  rcases hd : s.data with _ | t <;>
    simp [CXString.ToString, hd, Call.handleLifecycle, Call.obtainedHandle]

/-- The handles handed out during the fix-it loop are the texts of the fix-its read, in
order. -/
theorem fixItCalls_obtained (d : CXDiagnostic) (l : List Nat) :
    ((l.map (fixItCalls d)).flatten).filterMap Call.obtainedHandle =
      l.map (fun i => (clang_getDiagnosticFixIt d i).1) := by
  induction l with
  | nil => rfl
  | cons i l ih =>
    simp only [List.map_cons, List.flatten_cons, List.filterMap_append, ih, fixItCalls,
      List.filterMap_cons, ToString_calls_obtained]
    simp [Call.obtainedHandle, GetLsRangeForFixIt]

/-- In the fix-it loop every call that concerns a string handle belongs to the life of
a handle handed out there: the call that hands it out, then one `ToString` of it. -/
theorem fixItCalls_handleCalls (d : CXDiagnostic) (l : List Nat) :
    ((l.map (fixItCalls d)).flatten).filter Call.isHandleCall =
      (((l.map (fixItCalls d)).flatten).map Call.handleLifecycle).flatten := by
  induction l with
  | nil => rfl
  | cons i l ih =>
    simp only [List.map_cons, List.flatten_cons, List.filter_append, List.map_append,
      List.flatten_append, ih, fixItCalls, List.filter_cons, ToString_calls_isHandleCall,
      ToString_calls_lifecycle]
    simp [Call.isHandleCall, Call.isStringCall, Call.obtainedHandle, Call.handleLifecycle,
      GetLsRangeForFixIt]

/-- C13: in one call of `BuildAndDisposeDiagnostic`, the calls that concern string
handles are, for each call that hands a handle out and in the order of these calls, that
call followed by the native calls of exactly one `ToString` of the handle, and nothing
else; so the disposals of string handles are one for each handle handed out that
carries data, and none for a handle without data.  On the accepted path the handles
handed out are the file name, the spelling, the enabling option and the text of each of
the N fix-its (N + 3 handles); on the filtered path only the file name. -/
theorem BuildAndDisposeDiagnostic_string_handles (NormalizePath : String → String)
    (d : CXDiagnostic) (p : String) :
    (BuildAndDisposeDiagnostic NormalizePath d p).2.filter Call.isHandleCall =
        ((BuildAndDisposeDiagnostic NormalizePath d p).2.map Call.handleLifecycle).flatten ∧
      (BuildAndDisposeDiagnostic NormalizePath d p).2.filter Call.isDisposeString =
        (((BuildAndDisposeDiagnostic NormalizePath d p).2.filterMap
          Call.obtainedHandle).filter CXString.hasData).map Call.clang_disposeString ∧
      (p = (FileName NormalizePath d.location.file).1 →
        (BuildAndDisposeDiagnostic NormalizePath d p).2.filterMap Call.obtainedHandle =
          d.location.file.name :: d.spelling :: d.option :: d.fixits.map Prod.fst ∧
        ((BuildAndDisposeDiagnostic NormalizePath d p).2.filterMap
          Call.obtainedHandle).length = d.fixits.length + 3) ∧
      (p ≠ (FileName NormalizePath d.location.file).1 →
        (BuildAndDisposeDiagnostic NormalizePath d p).2.filterMap Call.obtainedHandle =
          [d.location.file.name]) := by
  have hobt_acc : p = (FileName NormalizePath d.location.file).1 →
      (BuildAndDisposeDiagnostic NormalizePath d p).2.filterMap Call.obtainedHandle =
        d.location.file.name :: d.spelling :: d.option :: d.fixits.map Prod.fst := by
    intro h
    rw [BuildAndDisposeDiagnostic_accepted_calls_list NormalizePath d p h]
    simp only [List.filterMap_append, fixItCalls_obtained, ToString_calls_obtained,
      fixIt_range_map d Prod.fst]
    simp [Call.obtainedHandle]
  have hobt_rej : p ≠ (FileName NormalizePath d.location.file).1 →
      (BuildAndDisposeDiagnostic NormalizePath d p).2.filterMap Call.obtainedHandle =
        [d.location.file.name] := by
    intro h
    rw [BuildAndDisposeDiagnostic_rejected_calls_list NormalizePath d p h]
    simp only [List.filterMap_append, ToString_calls_obtained]
    simp [Call.obtainedHandle]
  refine ⟨?_, ?_, ?_, hobt_rej⟩
  · by_cases h : p = (FileName NormalizePath d.location.file).1
    · rw [BuildAndDisposeDiagnostic_accepted_calls_list NormalizePath d p h]
      simp only [List.filter_append, List.map_append, List.flatten_append,
        fixItCalls_handleCalls, ToString_calls_isHandleCall, ToString_calls_lifecycle]
      simp [Call.isHandleCall, Call.isStringCall, Call.obtainedHandle, Call.handleLifecycle]
    · rw [BuildAndDisposeDiagnostic_rejected_calls_list NormalizePath d p h]
      simp only [List.filter_append, List.map_append, List.flatten_append,
        ToString_calls_isHandleCall, ToString_calls_lifecycle]
      simp [Call.isHandleCall, Call.isStringCall, Call.obtainedHandle, Call.handleLifecycle]
  · by_cases h : p = (FileName NormalizePath d.location.file).1
    · rw [hobt_acc h, BuildAndDisposeDiagnostic_accepted_calls_list NormalizePath d p h]
      simp only [List.filter_append, fixItCalls_isDisposeString,
        ToString_calls_isDisposeString]
      simp [Call.isDisposeString, List.filter_cons]
      cases d.location.file.name.hasData <;> cases d.spelling.hasData <;>
        cases d.option.hasData <;> simp
    · rw [hobt_rej h, BuildAndDisposeDiagnostic_rejected_calls_list NormalizePath d p h]
      simp only [List.filter_append, ToString_calls_isDisposeString]
      simp [Call.isDisposeString]
  · intro h
    refine ⟨hobt_acc h, ?_⟩
    rw [hobt_acc h]
    simp

/-- Witness of C13 on `sampleDiagnostic`: accepted for `foo.cc`, five handles are handed
out (the last without data) and four are disposed; filtered for `bar.cc`, the file name
is the only handle and it is disposed. -/
theorem BuildAndDisposeDiagnostic_string_handles_witness :
    ((BuildAndDisposeDiagnostic id sampleDiagnostic "foo.cc").2.filterMap
          Call.obtainedHandle =
        [⟨some "foo.cc", 1⟩, ⟨some "unused variable", 2⟩, ⟨some "-Wunused", 3⟩,
          ⟨some "int", 4⟩, ⟨none, 0⟩] ∧
      (BuildAndDisposeDiagnostic id sampleDiagnostic "foo.cc").2.filter
          Call.isDisposeString =
        [Call.clang_disposeString ⟨some "foo.cc", 1⟩,
          Call.clang_disposeString ⟨some "unused variable", 2⟩,
          Call.clang_disposeString ⟨some "-Wunused", 3⟩,
          Call.clang_disposeString ⟨some "int", 4⟩]) ∧
      ((BuildAndDisposeDiagnostic id sampleDiagnostic "bar.cc").2.filterMap
          Call.obtainedHandle = [⟨some "foo.cc", 1⟩] ∧
      (BuildAndDisposeDiagnostic id sampleDiagnostic "bar.cc").2.filter
          Call.isDisposeString = [Call.clang_disposeString ⟨some "foo.cc", 1⟩]) :=
  ⟨⟨((BuildAndDisposeDiagnostic_string_handles id sampleDiagnostic "foo.cc").2.2.1
        (by decide)).1,
    (BuildAndDisposeDiagnostic_string_handles id sampleDiagnostic "foo.cc").2.1.trans
      (by decide)⟩,
   ⟨(BuildAndDisposeDiagnostic_string_handles id sampleDiagnostic "bar.cc").2.2.2
        (by decide),
    (BuildAndDisposeDiagnostic_string_handles id sampleDiagnostic "bar.cc").2.1.trans
      (by decide)⟩⟩

/-- C14: in one call of `BuildAndDisposeDiagnostic`, on both paths, the call that
disposes the diagnostic handle is the last call made: no earlier call disposes it, and
after it no call at all is made, so no query on the handle follows its disposal. -/
theorem BuildAndDisposeDiagnostic_dispose_last (NormalizePath : String → String)
    (d : CXDiagnostic) (p : String) :
    (BuildAndDisposeDiagnostic NormalizePath d p).2.getLast? =
        some (Call.clang_disposeDiagnostic d) ∧
      (BuildAndDisposeDiagnostic NormalizePath d p).2.dropLast.filter
        Call.isDisposeDiagnostic = [] ∧
      (∀ i j : Nat,
        (BuildAndDisposeDiagnostic NormalizePath d p).2[i]? =
          some (Call.clang_disposeDiagnostic d) →
        i < j → (BuildAndDisposeDiagnostic NormalizePath d p).2[j]? = none) := by
  have hsplit : ∃ before, (BuildAndDisposeDiagnostic NormalizePath d p).2 =
      before ++ [Call.clang_disposeDiagnostic d] ∧
      before.filter Call.isDisposeDiagnostic = [] := by
    by_cases h : p = (FileName NormalizePath d.location.file).1
    · refine ⟨_, BuildAndDisposeDiagnostic_accepted_calls NormalizePath d p h, ?_⟩
      simp only [List.filter_append, FileName_calls_noDisposeDiagnostic,
        ToString_calls_noDisposeDiagnostic, fixItCalls_noDisposeDiagnostic,
        List.filter_cons, List.filter_nil, Call.isDisposeDiagnostic, List.append_nil,
        List.nil_append]
      simp
    · refine ⟨_, by rw [BuildAndDisposeDiagnostic_rejected NormalizePath d p h], ?_⟩
      simp [List.filter_append, FileName_calls_noDisposeDiagnostic, Call.isDisposeDiagnostic]
  obtain ⟨before, htrace, hbefore⟩ := hsplit
  rw [htrace]
  refine ⟨by simp, by simp [hbefore], ?_⟩
  intro i j hi hij
  have hlen : before.length ≤ i := by
    by_contra hlt
    push_neg at hlt
    rw [List.getElem?_append_left hlt] at hi
    obtain ⟨hlt2, hget⟩ := List.getElem?_eq_some.mp hi
    have hmem : Call.clang_disposeDiagnostic d ∈ before.filter Call.isDisposeDiagnostic :=
      List.mem_filter.mpr ⟨hget ▸ List.getElem_mem hlt2, rfl⟩
    rw [hbefore] at hmem
    cases hmem
  apply List.getElem?_eq_none
  simp
  omega

/-- C15: for a replacement range with native start (sl, sc) and native end (el, ec), all
four at least 1 and `sc ≤ ec`, the range returned by `GetLsRangeForFixIt` has
`end.column - start.column = (ec - sc) + 1` and `end.line - start.line = el - sl`; a
native range on one line is widened by one column, and an empty native range becomes a
range of one column, not an empty one. -/
theorem GetLsRangeForFixIt_width (fs fe : CXFile) (sl sc el ec : Nat)
    (hsl : 1 ≤ sl) (hsc : 1 ≤ sc) (hel : 1 ≤ el) (hec : 1 ≤ ec) (hle : sc ≤ ec)
    (bsl : sl < 4294967296) (bsc : sc < 4294967296) (bel : el < 4294967296)
    (bec : ec < 4294967296) :
    ((GetLsRangeForFixIt ⟨⟨fs, sl, sc⟩, ⟨fe, el, ec⟩⟩).1.end_.character : Int) -
        (GetLsRangeForFixIt ⟨⟨fs, sl, sc⟩, ⟨fe, el, ec⟩⟩).1.start.character =
        ((ec : Int) - sc) + 1 ∧
      ((GetLsRangeForFixIt ⟨⟨fs, sl, sc⟩, ⟨fe, el, ec⟩⟩).1.end_.line : Int) -
        (GetLsRangeForFixIt ⟨⟨fs, sl, sc⟩, ⟨fe, el, ec⟩⟩).1.start.line = (el : Int) - sl ∧
      (sl = el →
        (GetLsRangeForFixIt ⟨⟨fs, sl, sc⟩, ⟨fe, el, ec⟩⟩).1.end_.line =
          (GetLsRangeForFixIt ⟨⟨fs, sl, sc⟩, ⟨fe, el, ec⟩⟩).1.start.line ∧
        (GetLsRangeForFixIt ⟨⟨fs, sl, sc⟩, ⟨fe, el, ec⟩⟩).1.end_.character =
          (GetLsRangeForFixIt ⟨⟨fs, sl, sc⟩, ⟨fe, el, ec⟩⟩).1.start.character +
            (ec - sc) + 1) ∧
      (sl = el → sc = ec →
        (GetLsRangeForFixIt ⟨⟨fs, sl, sc⟩, ⟨fe, el, ec⟩⟩).1.start ≠
          (GetLsRangeForFixIt ⟨⟨fs, sl, sc⟩, ⟨fe, el, ec⟩⟩).1.end_ ∧
        (GetLsRangeForFixIt ⟨⟨fs, sl, sc⟩, ⟨fe, el, ec⟩⟩).1.end_.character =
          (GetLsRangeForFixIt ⟨⟨fs, sl, sc⟩, ⟨fe, el, ec⟩⟩).1.start.character + 1) := by
  have h1 : ∀ n : Nat, 1 ≤ n → n < 4294967296 → usub n 1 = n - 1 := usub_one_of_pos
  simp only [GetLsRangeForFixIt, h1 sl hsl bsl, h1 sc hsc bsc, h1 el hel bel]
  refine ⟨by omega, by omega, ?_, ?_⟩
  · intro hlines
    constructor <;> omega
  · intro hlines hcols
    refine ⟨?_, by omega⟩
    intro heq
    have hc := congrArg lsPosition.character heq
    simp only at hc
    omega

/-- Witness of C15: native (10, 5)-(10, 9), four columns wide, gives a range five
columns wide on one line. -/
theorem GetLsRangeForFixIt_width_witness :
    ((GetLsRangeForFixIt ⟨⟨sampleFile, 10, 5⟩, ⟨sampleFile, 10, 9⟩⟩).1.end_.character : Int) -
        (GetLsRangeForFixIt ⟨⟨sampleFile, 10, 5⟩, ⟨sampleFile, 10, 9⟩⟩).1.start.character =
        (((9 : Nat) : Int) - (5 : Nat)) + 1 ∧
      ((GetLsRangeForFixIt ⟨⟨sampleFile, 10, 5⟩, ⟨sampleFile, 10, 9⟩⟩).1.end_.line : Int) -
        (GetLsRangeForFixIt ⟨⟨sampleFile, 10, 5⟩, ⟨sampleFile, 10, 9⟩⟩).1.start.line =
        ((10 : Nat) : Int) - (10 : Nat) :=
  ⟨(GetLsRangeForFixIt_width sampleFile sampleFile 10 5 10 9 (by decide) (by decide)
      (by decide) (by decide) (by decide) (by decide) (by decide) (by decide)
      (by decide)).1,
   (GetLsRangeForFixIt_width sampleFile sampleFile 10 5 10 9 (by decide) (by decide)
      (by decide) (by decide) (by decide) (by decide) (by decide) (by decide)
      (by decide)).2.1⟩

/-- C16: for a native replacement range with lines and columns at least 1 whose start is
lexicographically less than or equal to its end (by line, then column), the start of the
range returned by `GetLsRangeForFixIt` is lexicographically strictly less than its
end.  The end column needs no bound for this. -/
theorem GetLsRangeForFixIt_ordered (fs fe : CXFile) (sl sc el ec : Nat)
    (hsl : 1 ≤ sl) (hsc : 1 ≤ sc) (hel : 1 ≤ el)
    (bsl : sl < 4294967296) (bsc : sc < 4294967296) (bel : el < 4294967296)
    (hle : lexLe sl sc el ec = true) :
    lexLt (GetLsRangeForFixIt ⟨⟨fs, sl, sc⟩, ⟨fe, el, ec⟩⟩).1.start.line
        (GetLsRangeForFixIt ⟨⟨fs, sl, sc⟩, ⟨fe, el, ec⟩⟩).1.start.character
        (GetLsRangeForFixIt ⟨⟨fs, sl, sc⟩, ⟨fe, el, ec⟩⟩).1.end_.line
        (GetLsRangeForFixIt ⟨⟨fs, sl, sc⟩, ⟨fe, el, ec⟩⟩).1.end_.character = true := by
  have h1 : ∀ n : Nat, 1 ≤ n → n < 4294967296 → usub n 1 = n - 1 := usub_one_of_pos
  simp only [lexLe, Bool.or_eq_true, Bool.and_eq_true, decide_eq_true_eq] at hle
  simp only [GetLsRangeForFixIt, h1 sl hsl bsl, h1 sc hsc bsc, h1 el hel bel, lexLt,
    Bool.or_eq_true, Bool.and_eq_true, decide_eq_true_eq]
  omega

/-- Witness of C16: the empty native range (11, 1)-(11, 1) gives (10, 0)-(10, 1), whose
start is strictly before its end. -/
theorem GetLsRangeForFixIt_ordered_witness :
    lexLt (GetLsRangeForFixIt ⟨⟨sampleFile, 11, 1⟩, ⟨sampleFile, 11, 1⟩⟩).1.start.line
        (GetLsRangeForFixIt ⟨⟨sampleFile, 11, 1⟩, ⟨sampleFile, 11, 1⟩⟩).1.start.character
        (GetLsRangeForFixIt ⟨⟨sampleFile, 11, 1⟩, ⟨sampleFile, 11, 1⟩⟩).1.end_.line
        (GetLsRangeForFixIt ⟨⟨sampleFile, 11, 1⟩, ⟨sampleFile, 11, 1⟩⟩).1.end_.character = true :=
  GetLsRangeForFixIt_ordered sampleFile sampleFile 11 1 11 1 (by decide) (by decide)
    (by decide) (by decide) (by decide) (by decide) (by decide)

/-! ## Injectivity of `ToString(CXCursorKind)` on the table -/

/-- For every code the result of `ToString(CXCursorKind)` is the fallback literal, with
no case of that code in the table, or the literal of a case of that code. -/
theorem CXCursorKind_ToString_cases (value : CXCursorEnumerator → Int) (k : Int) :
    (CXCursorKind.ToString value k = "<unknown kind>" ∧
        ∀ c ∈ cursorKindCases, value c.1 ≠ k) ∨
      ∃ c ∈ cursorKindCases, value c.1 = k ∧ CXCursorKind.ToString value k = c.2 := by
  unfold CXCursorKind.ToString
  rcases hfind : cursorKindCases.find? (fun c => value c.1 = k) with _ | c
  · left
    refine ⟨by rw [hfind], ?_⟩
    intro c hc
    simpa using List.find?_eq_none.mp hfind c hc
  · right
    refine ⟨c, List.mem_of_find?_eq_some hfind, ?_, by rw [hfind]⟩
    simpa using List.find?_some hfind

set_option maxRecDepth 100000 in
/-- No case of the table returns the fallback literal. -/
theorem cursorKindCases_ne_unknown : ∀ c ∈ cursorKindCases, c.2 ≠ "<unknown kind>" := by
  decide

set_option maxRecDepth 100000 in
/-- Looking the literal of a case up in the table finds the enumerator of that case. -/
theorem cursorKindCases_find_name : ∀ c ∈ cursorKindCases,
    (cursorKindCases.find? (fun r => r.2 = c.2)).map (fun r => r.1) = some c.1 := by
  decide

/-- Two cases of the table with the same literal have the same enumerator. -/
theorem cursorKindCases_name_injective (c1 c2 : CXCursorEnumerator × String)
    (h1 : c1 ∈ cursorKindCases) (h2 : c2 ∈ cursorKindCases) (h : c1.2 = c2.2) :
    c1.1 = c2.1 := by
  have e1 := cursorKindCases_find_name c1 h1
  have e2 := cursorKindCases_find_name c2 h2
  rw [h, e2] at e1
  exact (Option.some.inj e1).symm

/-- C17: `ToString(CXCursorKind)` is injective on the codes of its table and keeps the
fallback apart: two distinct codes that each have a case return distinct names, no code
that has a case returns `<unknown kind>`, and the result is `<unknown kind>` exactly for
the codes without a case.  This holds for every assignment of values to the
enumerators. -/
theorem CXCursorKind_ToString_injective (value : CXCursorEnumerator → Int) :
    (∀ k1 k2 : Int, k1 ≠ k2 →
        (∃ c ∈ cursorKindCases, value c.1 = k1) → (∃ c ∈ cursorKindCases, value c.1 = k2) →
        CXCursorKind.ToString value k1 ≠ CXCursorKind.ToString value k2) ∧
      (∀ k : Int, (∃ c ∈ cursorKindCases, value c.1 = k) →
        CXCursorKind.ToString value k ≠ "<unknown kind>") ∧
      (∀ k : Int, CXCursorKind.ToString value k = "<unknown kind>" ↔
        ∀ c ∈ cursorKindCases, value c.1 ≠ k) := by
  have hcase : ∀ k : Int, (∃ c ∈ cursorKindCases, value c.1 = k) →
      ∃ c ∈ cursorKindCases, value c.1 = k ∧ CXCursorKind.ToString value k = c.2 := by
    intro k hk
    rcases CXCursorKind_ToString_cases value k with ⟨_, hno⟩ | hyes
    · obtain ⟨c, hc, hv⟩ := hk
      exact absurd hv (hno c hc)
    · exact hyes
  have hknown : ∀ k : Int, (∃ c ∈ cursorKindCases, value c.1 = k) →
      CXCursorKind.ToString value k ≠ "<unknown kind>" := by
    intro k hk
    obtain ⟨c, hc, _, hname⟩ := hcase k hk
    rw [hname]
    exact cursorKindCases_ne_unknown c hc
  refine ⟨?_, hknown, ?_⟩
  · intro k1 k2 hne h1 h2 heq
    obtain ⟨c1, hc1, hv1, hn1⟩ := hcase k1 h1
    obtain ⟨c2, hc2, hv2, hn2⟩ := hcase k2 h2
    have hsame : c1.1 = c2.1 :=
      cursorKindCases_name_injective c1 c2 hc1 hc2 (by rw [← hn1, ← hn2, heq])
    apply hne
    rw [← hv1, ← hv2, hsame]
  · intro k
    constructor
    · intro hunknown c hc hv
      exact hknown k ⟨c, hc, hv⟩ hunknown
    · intro hno
      rcases CXCursorKind_ToString_cases value k with ⟨hres, _⟩ | ⟨c, hc, hv, _⟩
      · exact hres
      · exact absurd hv (hno c hc)

/-- Witness of C17: with the sample values, the codes 8 and 9 have cases and get distinct
names, neither being the fallback; the code 0 has no case and gets the fallback. -/
theorem CXCursorKind_ToString_injective_witness :
    CXCursorKind.ToString sampleValue 8 ≠ CXCursorKind.ToString sampleValue 9 ∧
      CXCursorKind.ToString sampleValue 8 ≠ "<unknown kind>" ∧
      CXCursorKind.ToString sampleValue 0 = "<unknown kind>" :=
  ⟨(CXCursorKind_ToString_injective sampleValue).1 8 9 (by decide)
      ⟨(CXCursorEnumerator.CXCursor_FunctionDecl, "FunctionDecl"), by decide, rfl⟩
      ⟨(CXCursorEnumerator.CXCursor_VarDecl, "VarDecl"), by decide, rfl⟩,
   (CXCursorKind_ToString_injective sampleValue).2.1 8
      ⟨(CXCursorEnumerator.CXCursor_FunctionDecl, "FunctionDecl"), by decide, rfl⟩,
   ((CXCursorKind_ToString_injective sampleValue).2.2 0).mpr sampleValue_ne_zero⟩

end ClangUtils
